import Mathlib

/-!
Shallow embedding of the navigation-graph / pathfinding / evacuation core of
`src/services/pathfinding.ts` (functions `distance3D`, `findNearestExit`,
`buildNavigationGraph`, `findNearestNode`, `aStar`, `calculatePath`,
`straightLinePath`, `moveAgent`) together with the data model of
`src/types/building.ts`.

Modelling conventions:
* JavaScript numbers are modelled as real numbers (`ℝ`); `Math.sqrt` is
  `Real.sqrt`.
* Optional fields (`x?: T`) are `Option T`; the JavaScript truthiness test
  `x || d` on numbers maps `undefined` and `0` to the default `d`
  (`jsOrR`, `jsLenOr`), on strings it maps `undefined` and `""` to false
  (`strTruthy`), and on booleans `undefined` maps to `false` (`jsBool`).
* `Infinity` is modelled by `Option ℝ` with `none` standing for `Infinity`
  (`ltInf`, `orInf`, `addInf`); `x || Infinity` is `orInf`, which sends both
  a missing value and the value `0` to `Infinity`, exactly as the source does.
* The sentinel `current = -1` of the A* minimum selection is the `none` case
  of `selectCurrent`: in the source, `-1` is never equal to the goal index,
  `openSet.delete(-1)` is a no-op and `edges.get(-1) || []` is `[]`, which is
  precisely what the `none` branch of the loop below does.
* JavaScript `Map`s keyed by node index are functions `ℕ → Option _`
  (respectively `ℕ → List ℕ` for the adjacency map, whose only observation in
  the source is `edges.get(i) || []`).
* The two unbounded `while` loops of `aStar` (the search loop and the
  `cameFrom` reconstruction loop) are given an explicit fuel argument;
  `none` means the loop has not finished within the given fuel, so
  "`= none` for every fuel" states non-termination of the source loop and
  "`= some r`" states that the loop returns `r`.
* Fields of the source types that no embedded function reads
  (`surface`, `width` of doors, stairs, installations, profile display
  metadata) are carried where cheap and dropped where they would only add
  noise; every field read by the embedded functions is present.
-/

open Classical

noncomputable section

/-- A 3D point `[x, y, z]`. -/
abbrev Vec3 : Type := ℝ × ℝ × ℝ

/-- Euclidean distance between two 3D points (`distance3D` in the source). -/
def distance3D (p1 p2 : Vec3) : ℝ :=
  Real.sqrt ((p1.1 - p2.1) * (p1.1 - p2.1) + (p1.2.1 - p2.2.1) * (p1.2.1 - p2.2.1) +
    (p1.2.2 - p2.2.2) * (p1.2.2 - p2.2.2))

/-- `Door` of `src/types/building.ts`. -/
structure Door where
  width : ℝ
  position : Option (ℝ × ℝ) := none
  connectsTo : Option String := none
  isExit : Option Bool := none

/-- `Area` of `src/types/building.ts`. -/
structure Area where
  name : String
  surface : Option ℝ := none
  width : Option ℝ := none
  length : Option ℝ := none
  position : Option (ℝ × ℝ) := none
  doors : Option (List Door) := none

/-- `Stair` of `src/types/building.ts` (metadata only; never read by the
pathfinding functions). -/
structure Stair where
  name : String
  position : ℝ × ℝ
  width : Option ℝ := none
  connectsToLevel : Option String := none

/-- `BuildingLevel` of `src/types/building.ts`. -/
structure BuildingLevel where
  levelName : String
  levelHeight : Option ℝ := none
  elevation : Option ℝ := none
  areas : List Area
  stairs : Option (List Stair) := none

/-- `BuildingData` of `src/types/building.ts` (the `projectInfo` and
`installations` blocks are never read by the pathfinding functions and are
dropped from the embedding). -/
structure BuildingData where
  buildingLevels : List BuildingLevel

/-- `AgentProfile` of `src/types/building.ts`. -/
structure AgentProfile where
  id : String
  name : String
  speed : ℝ
  color : String

/-- `Agent` of `src/types/building.ts`. -/
structure Agent where
  id : String
  profileId : String
  position : Vec3
  targetPosition : Option Vec3 := none
  path : Option (List Vec3) := none
  pathHistory : List Vec3
  levelIndex : ℕ
  isEvacuating : Bool
  evacuated : Bool
  evacuationTime : Option ℝ := none

/-- JavaScript `v || d` on an optional number: `undefined` and `0` give `d`. -/
def jsOrR (v : Option ℝ) (d : ℝ) : ℝ :=
  match v with
  | none => d
  | some x => if x = 0 then d else x

/-- JavaScript `(doors?.length || 1)` on an optional list: `undefined` and an
empty list give the default. -/
def jsLenOr (v : Option (List Door)) (d : ℕ) : ℕ :=
  match v with
  | none => d
  | some l => if l.length = 0 then d else l.length

/-- JavaScript truthiness of an optional boolean. -/
def jsBool (v : Option Bool) : Bool :=
  v.getD false

/-- JavaScript truthiness of an optional string (`undefined` and `""` are
falsy). -/
def strTruthy (v : Option String) : Bool :=
  match v with
  | none => false
  | some s => !s.isEmpty

/-- The string value behind a non-null assertion `s!`. -/
def jsStr (v : Option String) : String :=
  v.getD ""

/-- `String.prototype.toLowerCase`. -/
def strLower (s : String) : String :=
  String.mk (s.data.map Char.toLower)

/-- Does the character list start with the given pattern? -/
def listStarts : List Char → List Char → Bool
  | _, [] => true
  | [], _ :: _ => false
  | a :: as, b :: bs => a == b && listStarts as bs

/-- Does the pattern occur contiguously inside the list? -/
def listSub : List Char → List Char → Bool
  | [], pat => pat.isEmpty
  | c :: rest, pat => listStarts (c :: rest) pat || listSub rest pat

/-- JavaScript `hay.includes(needle)` on strings. -/
def jsIncludes (hay needle : String) : Bool :=
  listSub hay.data needle.data

/-- `NavNode` of the source. -/
structure NavNode where
  areaIndex : ℕ
  position : Vec3
  isDoor : Option Bool := none
  isExit : Option Bool := none

/-- `NavGraph` of the source; the `edges` map is observed only through
`edges.get(i) || []`, so it is embedded as the total function sending a node
index to its (possibly empty) neighbor list. -/
structure NavGraph where
  nodes : List NavNode
  edges : ℕ → List ℕ

/-- `edges.get(k)!.push(v)` (with the `if (!edges.has(k)) edges.set(k, [])`
initialisation): append `v` to the neighbor list of `k`. -/
def pushE (e : ℕ → List ℕ) (k v : ℕ) : ℕ → List ℕ :=
  fun i => if i = k then e i ++ [v] else e i

/-- The source's paired pushes `edges.get(a)!.push(b); edges.get(b)!.push(a)`. -/
def pushPair (e : ℕ → List ℕ) (a b : ℕ) : ℕ → List ℕ :=
  pushE (pushE e a b) b a

/-- The first `forEach` of `buildNavigationGraph`: one area-center node per
area that has a position, in area order, skipping areas without a position. -/
def areaNodesAux (elev : ℝ) : ℕ → List Area → List NavNode
  | _, [] => []
  | i, a :: rest =>
    (match a.position with
     | none => []
     | some p => [{ areaIndex := i, position := (p.1, elev + 0.5, p.2) }]) ++
      areaNodesAux elev (i + 1) rest

/-- The body of the inner door `forEach` of `buildNavigationGraph`: append the
door node, connect it to its owning area's center index, and, for a non-exit
door with a truthy `connectsTo`, to the first area whose lowercased name
contains the lowercased `connectsTo` (if distinct from the owning area). -/
def doorStep (allAreas : List Area) (elev : ℝ) (areaIndex : ℕ) (area : Area)
    (apos : ℝ × ℝ) (doorIndex : ℕ) (d : Door)
    (acc : List NavNode × (ℕ → List ℕ)) : List NavNode × (ℕ → List ℕ) :=
  let doorPosition : Vec3 :=
    match d.position with
    | some dp => (dp.1, elev + 0.5, dp.2)
    | none =>
      let w := jsOrR area.width 2
      let len := jsOrR area.length 2
      let edgeOffset : ℝ := ((doorIndex : ℝ) + 1) / ((jsLenOr area.doors 1 : ℕ) + 1 : ℝ)
      (apos.1 + (w / 2) * (edgeOffset * 2 - 1), elev + 0.5, apos.2 + len / 2)
  let doorNodeIndex := acc.1.length
  let nodes := acc.1 ++ [(⟨areaIndex, doorPosition, some true, d.isExit⟩ : NavNode)]
  let edges1 := pushPair acc.2 areaIndex doorNodeIndex
  let edges2 :=
    if strTruthy d.connectsTo && !jsBool d.isExit then
      match allAreas.findIdx?
          (fun a2 => jsIncludes (strLower a2.name) (strLower (jsStr d.connectsTo))) with
      | some t => if t ≠ areaIndex then pushPair edges1 doorNodeIndex t else edges1
      | none => edges1
    else edges1
  (nodes, edges2)

/-- The inner door `forEach` of `buildNavigationGraph`. -/
def doorsLoop (allAreas : List Area) (elev : ℝ) (areaIndex : ℕ) (area : Area)
    (apos : ℝ × ℝ) : ℕ → List Door →
    (List NavNode × (ℕ → List ℕ)) → List NavNode × (ℕ → List ℕ)
  | _, [], acc => acc
  | di, d :: rest, acc =>
    doorsLoop allAreas elev areaIndex area apos (di + 1) rest
      (doorStep allAreas elev areaIndex area apos di d acc)

/-- The second (outer) `forEach` of `buildNavigationGraph`: areas without a
truthy `doors` field or without a position contribute no door nodes. -/
def areasLoop (allAreas : List Area) (elev : ℝ) : ℕ → List Area →
    (List NavNode × (ℕ → List ℕ)) → List NavNode × (ℕ → List ℕ)
  | _, [], acc => acc
  | i, a :: rest, acc =>
    areasLoop allAreas elev (i + 1) rest
      (match a.doors, a.position with
       | some ds, some apos => doorsLoop allAreas elev i a apos 0 ds acc
       | _, _ => acc)

/-- `buildNavigationGraph` of the source. -/
def buildNavigationGraph (buildingData : BuildingData) (levelIndex : ℕ) : NavGraph :=
  match buildingData.buildingLevels.get? levelIndex with
  | none => ⟨[], fun _ => []⟩
  | some level =>
    let elev := jsOrR level.elevation 0
    let res := areasLoop level.areas elev 0 level.areas
      (areaNodesAux elev 0 level.areas, fun _ => [])
    ⟨res.1, res.2⟩

/-- `findNearestExit` of the source: scan all areas of the agent's level that
have doors and a position, and among their exit-flagged doors keep the area
center (lifted by 0.5) closest to the agent. `none` plays `Infinity` /
`null` in the running minimum. -/
def findNearestExit (agent : Agent) (buildingData : BuildingData) : Option Vec3 :=
  match buildingData.buildingLevels.get? agent.levelIndex with
  | none => none
  | some level =>
    (level.areas.foldl
      (fun acc area =>
        match area.doors, area.position with
        | some ds, some apos =>
          ds.foldl
            (fun acc2 door =>
              if jsBool door.isExit then
                let exitPos : Vec3 := (apos.1, jsOrR level.elevation 0 + 0.5, apos.2)
                let dist := distance3D agent.position exitPos
                match acc2.2 with
                | none => (some exitPos, some dist)
                | some m => if dist < m then (some exitPos, some dist) else acc2
              else acc2)
            acc
        | _, _ => acc)
      ((none : Option Vec3), (none : Option ℝ))).1

/-- `a < b` where `none` stands for `Infinity`. -/
def ltInf : Option ℝ → Option ℝ → Prop
  | some x, some y => x < y
  | some _, none => True
  | none, _ => False

/-- JavaScript `v || Infinity` on a map lookup: both a missing entry and the
value `0` become `Infinity` (`none`). -/
def orInf : Option ℝ → Option ℝ
  | none => none
  | some x => if x = 0 then none else some x

/-- Addition where `none` stands for `Infinity`. -/
def addInf : Option ℝ → ℝ → Option ℝ
  | none, _ => none
  | some x, d => some (x + d)

/-- `findNearestNode`'s `forEach`, tracking `(nearestIndex, minDist)` with
`none` as the initial `Infinity`. -/
def nearestAux (position : Vec3) : ℕ → List NavNode → ℕ × Option ℝ → ℕ × Option ℝ
  | _, [], acc => acc
  | i, n :: rest, acc =>
    let dist := distance3D position n.position
    nearestAux position (i + 1) rest
      (if ltInf (some dist) acc.2 then (i, some dist) else acc)

/-- `findNearestNode` of the source (initial `nearestIndex` is `0`). -/
def findNearestNode (position : Vec3) (nodes : List NavNode) : ℕ :=
  (nearestAux position 0 nodes (0, none)).1

/-- `graph.nodes[i].position`; valid indices are the only ones the source ever
dereferences (any other access would throw in JavaScript). -/
def nodePos (graph : NavGraph) (i : ℕ) : Vec3 :=
  ((graph.nodes.get? i).getD { areaIndex := 0, position := (0, 0, 0) }).position

/-- Mutable state of the source's A* `while` loop. -/
structure AState where
  openSet : List ℕ
  cameFrom : ℕ → Option ℕ
  gScore : ℕ → Option ℝ
  fScore : ℕ → Option ℝ

/-- The `openSet.forEach` minimum-`fScore` selection: `minF` starts at
`Infinity`, each `fScore.get(i) || Infinity` is compared strictly, and the
result is `none` exactly when `current` would remain `-1` in the source. -/
def selectAux (f : ℕ → Option ℝ) : List ℕ → Option ℕ × Option ℝ → Option ℕ × Option ℝ
  | [], acc => acc
  | i :: rest, acc =>
    selectAux f rest (if ltInf (orInf (f i)) acc.2 then (some i, orInf (f i)) else acc)

/-- The node the source's selection loop picks from the open set. -/
def selectCurrent (openSet : List ℕ) (f : ℕ → Option ℝ) : Option ℕ :=
  (selectAux f openSet (none, none)).1

/-- The neighbor `forEach` of the A* loop: `tentativeGScore` is
`(gScore.get(current) || Infinity) + distance`, and a neighbor is updated and
(re)opened only when that is strictly below `gScore.get(neighbor) || Infinity`. -/
def relaxNeighbors (graph : NavGraph) (goal current : ℕ) (st : AState) : AState :=
  (graph.edges current).foldl
    (fun s neighbor =>
      match addInf (orInf (s.gScore current))
          (distance3D (nodePos graph current) (nodePos graph neighbor)) with
      | none => s
      | some t =>
        if ltInf (some t) (orInf (s.gScore neighbor)) then
          { openSet := if neighbor ∈ s.openSet then s.openSet else s.openSet ++ [neighbor]
            cameFrom := fun i => if i = neighbor then some current else s.cameFrom i
            gScore := fun i => if i = neighbor then some t else s.gScore i
            fScore := fun i =>
              if i = neighbor then
                some (t + distance3D (nodePos graph neighbor) (nodePos graph goal))
              else s.fScore i }
        else s)
    st

/-- The source's path reconstruction `while (cameFrom.has(current))`, with
fuel; `acc` holds the part of the path already `unshift`ed. -/
def reconstructGo (cf : ℕ → Option ℕ) : ℕ → ℕ → List ℕ → Option (List ℕ)
  | 0, cur, acc =>
    match cf cur with
    | none => some (cur :: acc)
    | some _ => none
  | fuel + 1, cur, acc =>
    match cf cur with
    | none => some (cur :: acc)
    | some p => reconstructGo cf fuel p (cur :: acc)

/-- The source's A* `while (openSet.size > 0)` loop, with fuel. When the
selection leaves `current = -1` (`none` here) the source deletes nothing,
iterates over no neighbors and loops again on an unchanged state. -/
def aStarGo (graph : NavGraph) (goal : ℕ) : ℕ → AState → Option (List ℕ)
  | 0, _ => none
  | fuel + 1, st =>
    if st.openSet = [] then some []
    else
      match selectCurrent st.openSet st.fScore with
      | none => aStarGo graph goal fuel st
      | some current =>
        if current = goal then reconstructGo st.cameFrom fuel current []
        else
          aStarGo graph goal fuel
            (relaxNeighbors graph goal current { st with openSet := st.openSet.erase current })

/-- `aStar` of the source: `some path` when the loop returns within `fuel`
iterations (`some []` is the source's "no path found"); `none` when it has not
finished. -/
def aStar (fuel : ℕ) (startNodeIndex goalNodeIndex : ℕ) (graph : NavGraph) :
    Option (List ℕ) :=
  aStarGo graph goalNodeIndex fuel
    { openSet := [startNodeIndex]
      cameFrom := fun _ => none
      gScore := fun i => if i = startNodeIndex then some 0 else none
      fScore := fun i =>
        if i = startNodeIndex then
          some (distance3D (nodePos graph startNodeIndex) (nodePos graph goalNodeIndex))
        else none }

/-- The `findIndex` over levels in `calculatePath`: first level whose
`elevation || 0` is within `1.5` of `start[1] - 0.5`. -/
def levelMatchIndex (y : ℝ) : List BuildingLevel → Option ℕ
  | [] => none
  | l :: rest =>
    if |y - jsOrR l.elevation 0 - 0.5| < 1.5 then some 0
    else (levelMatchIndex y rest).map (· + 1)

/-- `straightLinePath` of the source: `steps + 1` interpolated points. -/
def straightLinePath (start endP : Vec3) (steps : ℕ) : List Vec3 :=
  (List.range (steps + 1)).map fun (i : ℕ) =>
    let t : ℝ := (i : ℝ) / (steps : ℝ)
    (start.1 + (endP.1 - start.1) * t, start.2.1 + (endP.2.1 - start.2.1) * t,
      start.2.2 + (endP.2.2 - start.2.2) * t)

/-- `calculatePath` of the source, with the A* fuel made explicit: `none`
means the embedded `while` loop has not finished within `fuel` (the source
would still be looping); `some r` means the source returns `r`. -/
def calculatePath (fuel : ℕ) (start endP : Vec3) (buildingData : BuildingData)
    (navGraph : Option NavGraph) : Option (List Vec3) :=
  match levelMatchIndex start.2.1 buildingData.buildingLevels with
  | none => some (straightLinePath start endP 10)
  | some levelIndex =>
    let graph :=
      match navGraph with
      | some g => g
      | none => buildNavigationGraph buildingData levelIndex
    if graph.nodes.length = 0 then some (straightLinePath start endP 10)
    else
      let startNodeIndex := findNearestNode start graph.nodes
      let endNodeIndex := findNearestNode endP graph.nodes
      match aStar fuel startNodeIndex endNodeIndex graph with
      | none => none
      | some nodePath =>
        if nodePath.length = 0 then some (straightLinePath start endP 10)
        else some (start :: nodePath.map (fun i => nodePos graph i) ++ [endP])

/-- The body of `moveAgent` once the path is non-empty, the agent is not
evacuated and the profile resolved. -/
def moveStep (agent : Agent) (deltaTime : ℝ) (profile : AgentProfile)
    (target : Vec3) (rest : List Vec3) : Agent :=
  let speed := profile.speed
  let distanceToMove := speed * deltaTime
  let currentDist := distance3D agent.position target
  if currentDist ≤ distanceToMove then
    { agent with
      position := target
      path := some rest
      pathHistory := agent.pathHistory ++ [target]
      evacuated := rest.isEmpty
      evacuationTime := if rest.isEmpty then some (jsOrR agent.evacuationTime 0) else none }
  else
    let ratio := distanceToMove / currentDist
    { agent with
      position := (agent.position.1 + (target.1 - agent.position.1) * ratio,
        agent.position.2.1 + (target.2.1 - agent.position.2.1) * ratio,
        agent.position.2.2 + (target.2.2 - agent.position.2.2) * ratio) }

/-- `moveAgent` of the source. -/
def moveAgent (agent : Agent) (deltaTime : ℝ) (profiles : List AgentProfile) : Agent :=
  match agent.path with
  | none => agent
  | some [] => agent
  | some (target :: rest) =>
    if agent.evacuated then agent
    else
      match profiles.find? (fun p => p.id == agent.profileId) with
      | none => agent
      | some profile => moveStep agent deltaTime profile target rest

/-- Repeated ticking: fold `moveAgent` over a list of `dt` values. -/
def runMoves (profiles : List AgentProfile) : Agent → List ℝ → Agent
  | a, [] => a
  | a, dt :: rest => runMoves profiles (moveAgent a dt profiles) rest

/-- Length of the remaining path of an agent standing at `p`. -/
def pathLen (p : Vec3) : List Vec3 → ℝ
  | [] => 0
  | w :: ws => distance3D p w + pathLen w ws

/-- Total Euclidean length of a polyline of waypoints. -/
def polylineLen : List Vec3 → ℝ
  | [] => 0
  | p :: ws => pathLen p ws

/-- Modelled from the spec: a path in the navigation graph from `s` to `t`,
each consecutive pair joined by an edge. -/
def isGraphPath (g : NavGraph) : ℕ → ℕ → List ℕ → Prop
  | _, _, [] => False
  | s, t, [x] => x = s ∧ x = t
  | s, t, x :: y :: rest => x = s ∧ y ∈ g.edges x ∧ isGraphPath g y t (y :: rest)

/-- Modelled from the spec: the accumulated Euclidean edge weight of a path
of node indices. -/
def graphPathCost (g : NavGraph) : List ℕ → ℝ
  | [] => 0
  | [_] => 0
  | x :: y :: rest => distance3D (nodePos g x) (nodePos g y) + graphPathCost g (y :: rest)

/-- Modelled from the spec: the number of bidirectional (unordered) edges of
a graph with symmetric, duplicate-free adjacency lists over its node range. -/
def undirectedEdgeCount (g : NavGraph) : ℕ :=
  ((List.range g.nodes.length).map fun u =>
    ((g.edges u).filter fun v => decide (u < v)).length).sum

/-- Modelled from the spec: one would-be exit position (owning area's center,
lifted 0.5) per exit-flagged door of an area that has both doors and a
position — the candidates `findNearestExit` actually scans. -/
def exitCandidates (elev : ℝ) : List Area → List Vec3
  | [] => []
  | a :: rest =>
    (match a.doors, a.position with
     | some ds, some apos =>
       (ds.filter fun d => jsBool d.isExit).map fun _ => (apos.1, elev + 0.5, apos.2)
     | _, _ => []) ++ exitCandidates elev rest

/-- Modelled from the spec: does any door of any area of the level carry the
`isExit` flag (regardless of the area having a position)? -/
def levelHasExitDoor (level : BuildingLevel) : Bool :=
  level.areas.any fun a => (a.doors.getD []).any fun d => jsBool d.isExit

/-- Running minimum over a candidate list, mirroring the accumulator of
`findNearestExit`. -/
def minScan (pos : Vec3) : List Vec3 → Option Vec3 × Option ℝ → Option Vec3 × Option ℝ
  | [], acc => acc
  | c :: rest, acc =>
    minScan pos rest
      (match acc.2 with
       | none => (some c, some (distance3D pos c))
       | some m =>
         if distance3D pos c < m then (some c, some (distance3D pos c)) else acc)

/-- One tick never moves farther than the distance to the current waypoint
(and `dt` is nonnegative). -/
def tickOk (profiles : List AgentProfile) (a : Agent) (dt : ℝ) : Prop :=
  0 ≤ dt ∧
    ∀ pr target restPath, profiles.find? (fun p => p.id == a.profileId) = some pr →
      a.path = some (target :: restPath) → a.evacuated = false →
      pr.speed * dt ≤ distance3D a.position target

/-- Every tick of the run satisfies `tickOk` on the state it is applied to. -/
def noOvershootRun (profiles : List AgentProfile) : Agent → List ℝ → Prop
  | _, [] => True
  | a, dt :: rest => tickOk profiles a dt ∧ noOvershootRun profiles (moveAgent a dt profiles) rest

/-- Consecutive waypoints are at strictly positive distance. -/
def chainPos : List Vec3 → Prop
  | [] => True
  | [_] => True
  | x :: y :: rest => 0 < distance3D x y ∧ chainPos (y :: rest)

/-! Concrete inputs used by the scenario theorems. -/

/-- The exit door of SALA in the spec's two-area scenario. -/
def salaExitDoor : Door := { width := 1, isExit := some true }

/-- The COCINA door leading to SALA in the spec's two-area scenario. -/
def cocinaDoor : Door := { width := 1, connectsTo := some "SALA" }

/-- SALA: 2×2 area at (0,0) with one exit door. -/
def salaArea : Area :=
  { name := "SALA", width := some 2, length := some 2, position := some (0, 0),
    doors := some [salaExitDoor] }

/-- COCINA: 2×2 area at (3,0) with one non-exit door connecting to SALA. -/
def cocinaArea : Area :=
  { name := "COCINA", width := some 2, length := some 2, position := some (3, 0),
    doors := some [cocinaDoor] }

/-- The level of the spec's two-area scenario. -/
def twoAreaLevel : BuildingLevel := { levelName := "PLANTA", areas := [salaArea, cocinaArea] }

/-- The building of the spec's two-area scenario. -/
def twoAreaBuilding : BuildingData := ⟨[twoAreaLevel]⟩

/-- An agent standing at COCINA's center. -/
def cocinaAgent : Agent :=
  { id := "a1", profileId := "adult-normal", position := (3, 0.5, 0), pathHistory := [],
    levelIndex := 0, isEvacuating := true, evacuated := false }

/-- A level with a single positioned area and no doors. -/
def oneAreaLevel : BuildingLevel := { levelName := "L", areas := [{ name := "A", position := some (0, 0) }] }

/-- A building whose only level has exactly one graph node. -/
def oneAreaBuilding : BuildingData := ⟨[oneAreaLevel]⟩

/-- Room A at (0,0) with a positioned door to room B. -/
def roomA : Area :=
  { name := "A", position := some (0, 0),
    doors := some [{ width := 1, position := some (0.5, 0), connectsTo := some "B" }] }

/-- Room B at (1,0). -/
def roomB : Area := { name := "B", position := some (1, 0) }

/-- A level whose graph is the path A — door — B with edge weights 0.5. -/
def corridorLevel : BuildingLevel := { levelName := "C", areas := [roomA, roomB] }

/-- The building around `corridorLevel`. -/
def corridorBuilding : BuildingData := ⟨[corridorLevel]⟩

/-- A level whose first area has no position and whose second has one. -/
def gapLevel : BuildingLevel :=
  { levelName := "G", areas := [{ name := "ZERO" }, { name := "ONE", position := some (5, 7) }] }

/-- The building around `gapLevel`. -/
def gapBuilding : BuildingData := ⟨[gapLevel]⟩

/-- A level in which every area has a position. -/
def alignedLevel : BuildingLevel :=
  { levelName := "W",
    areas := [{ name := "P", position := some (1, 2) }, { name := "Q", position := some (3, 4) }] }

/-- The building around `alignedLevel`. -/
def alignedBuilding : BuildingData := ⟨[alignedLevel]⟩

/-- One positioned area with one plain (non-exit, unconnected) door. -/
def plainDoorLevel : BuildingLevel :=
  { levelName := "S", areas := [{ name := "ROOM", position := some (0, 0), doors := some [{ width := 1 }] }] }

/-- The building around `plainDoorLevel`. -/
def plainDoorBuilding : BuildingData := ⟨[plainDoorLevel]⟩

/-- A level whose only exit door sits in an area without a position. -/
def hiddenExitLevel : BuildingLevel :=
  { levelName := "H", areas := [{ name := "NOPOS", doors := some [{ width := 1, isExit := some true }] }] }

/-- The building around `hiddenExitLevel`. -/
def hiddenExitBuilding : BuildingData := ⟨[hiddenExitLevel]⟩

/-- An agent on `hiddenExitBuilding`'s only level. -/
def hiddenExitAgent : Agent :=
  { id := "a2", profileId := "adult-normal", position := (0, 0, 0), pathHistory := [],
    levelIndex := 0, isEvacuating := false, evacuated := false }

/-- A positioned area with one exit door. -/
def exitWLevel : BuildingLevel :=
  { levelName := "E", areas := [{ name := "OUT", position := some (2, 3), doors := some [{ width := 1, isExit := some true }] }] }

/-- The building around `exitWLevel`. -/
def exitWBuilding : BuildingData := ⟨[exitWLevel]⟩

/-- An agent on `exitWBuilding`'s only level. -/
def exitWAgent : Agent :=
  { id := "a4", profileId := "adult-normal", position := (0, 0, 0), pathHistory := [],
    levelIndex := 0, isEvacuating := false, evacuated := false }

/-- A level with one area that has no position at all. -/
def bareLevel : BuildingLevel := { levelName := "B", areas := [{ name := "FREE" }] }

/-- The building around `bareLevel`. -/
def bareBuilding : BuildingData := ⟨[bareLevel]⟩

/-- A building with no levels at all. -/
def emptyBuilding : BuildingData := ⟨[]⟩

/-- A profile moving at 1 m/s. -/
def walkProfile : AgentProfile := { id := "walker", name := "Walker", speed := 1, color := "blue" }

/-- An agent at the origin with the two-waypoint path (1,0,0), (2,0,0). -/
def walkAgent : Agent :=
  { id := "a3", profileId := "walker", position := (0, 0, 0),
    path := some [(1, 0, 0), (2, 0, 0)], pathHistory := [], levelIndex := 0,
    isEvacuating := true, evacuated := false }

/-- `walkAgent` after exactly reaching its first waypoint. -/
def walkAgentMid : Agent :=
  { id := "a3", profileId := "walker", position := (1, 0, 0),
    path := some [(2, 0, 0)], pathHistory := [(1, 0, 0)], levelIndex := 0,
    isEvacuating := true, evacuated := false }

end

/-! Helper lemmas. -/

theorem sqrt_eval {a b : ℝ} (hb : 0 ≤ b) (h : b * b = a) : Real.sqrt a = b := by
  subst h
  exact Real.sqrt_mul_self hb

theorem distance3D_nonneg (p q : Vec3) : 0 ≤ distance3D p q :=
  Real.sqrt_nonneg _

theorem distance3D_self (p : Vec3) : distance3D p p = 0 := by
  simp [distance3D]

theorem distance3D_x (a b y z : ℝ) : distance3D (a, y, z) (b, y, z) = |a - b| := by
  simp only [distance3D, sub_self, mul_zero, zero_mul, add_zero]
  exact Real.sqrt_mul_self_eq_abs (a - b)

theorem moveAgent_frame (a : Agent) (dt : ℝ) (profiles : List AgentProfile) :
    (moveAgent a dt profiles).id = a.id ∧
    (moveAgent a dt profiles).profileId = a.profileId ∧
    (moveAgent a dt profiles).levelIndex = a.levelIndex ∧
    (moveAgent a dt profiles).isEvacuating = a.isEvacuating ∧
    (moveAgent a dt profiles).targetPosition = a.targetPosition := by
  unfold moveAgent
  split
  · exact ⟨rfl, rfl, rfl, rfl, rfl⟩
  · exact ⟨rfl, rfl, rfl, rfl, rfl⟩
  · split
    · exact ⟨rfl, rfl, rfl, rfl, rfl⟩
    · split
      · exact ⟨rfl, rfl, rfl, rfl, rfl⟩
      · unfold moveStep
        dsimp only
        split <;> exact ⟨rfl, rfl, rfl, rfl, rfl⟩

/-- Claim C10: for every agent, `dt`, and profile list, `moveAgent` preserves
`id`, `profileId`, `levelIndex`, `isEvacuating` and `targetPosition` — only
`position`, `path`, `pathHistory`, `evacuated` and `evacuationTime` can
change. -/
theorem c10_moveAgent_frame_fields (a : Agent) (dt : ℝ) (profiles : List AgentProfile) :
    (moveAgent a dt profiles).id = a.id ∧
    (moveAgent a dt profiles).profileId = a.profileId ∧
    (moveAgent a dt profiles).levelIndex = a.levelIndex ∧
    (moveAgent a dt profiles).isEvacuating = a.isEvacuating ∧
    (moveAgent a dt profiles).targetPosition = a.targetPosition :=
  moveAgent_frame a dt profiles

/-! Edge symmetry of the graph builder. -/

theorem mem_pushE {e : ℕ → List ℕ} {k v u w : ℕ} :
    w ∈ pushE e k v u ↔ w ∈ e u ∨ (u = k ∧ w = v) := by
  unfold pushE
  by_cases h : u = k <;> simp [h]

theorem mem_pushPair {e : ℕ → List ℕ} {a b u w : ℕ} :
    w ∈ pushPair e a b u ↔ w ∈ e u ∨ (u = a ∧ w = b) ∨ (u = b ∧ w = a) := by
  unfold pushPair
  rw [mem_pushE, mem_pushE]
  tauto

theorem pushPair_sym {e : ℕ → List ℕ} (he : ∀ u v, v ∈ e u → u ∈ e v) (a b : ℕ) :
    ∀ u v, v ∈ pushPair e a b u → u ∈ pushPair e a b v := by
  intro u v hv
  rw [mem_pushPair] at hv ⊢
  rcases hv with h | ⟨rfl, rfl⟩ | ⟨rfl, rfl⟩
  · exact Or.inl (he u v h)
  · exact Or.inr (Or.inr ⟨rfl, rfl⟩)
  · exact Or.inr (Or.inl ⟨rfl, rfl⟩)

theorem doorStep_sym (allAreas : List Area) (elev : ℝ) (areaIndex : ℕ) (area : Area)
    (apos : ℝ × ℝ) (di : ℕ) (d : Door) (acc : List NavNode × (ℕ → List ℕ))
    (h : ∀ u v, v ∈ acc.2 u → u ∈ acc.2 v) :
    ∀ u v, v ∈ (doorStep allAreas elev areaIndex area apos di d acc).2 u →
      u ∈ (doorStep allAreas elev areaIndex area apos di d acc).2 v := by
  unfold doorStep
  dsimp only
  split
  · split
    · split
      · exact pushPair_sym (pushPair_sym h _ _) _ _
      · exact pushPair_sym h _ _
    · exact pushPair_sym h _ _
  · exact pushPair_sym h _ _

theorem doorsLoop_sym (allAreas : List Area) (elev : ℝ) (areaIndex : ℕ) (area : Area)
    (apos : ℝ × ℝ) (ds : List Door) :
    ∀ (di : ℕ) (acc : List NavNode × (ℕ → List ℕ)),
      (∀ u v, v ∈ acc.2 u → u ∈ acc.2 v) →
      ∀ u v, v ∈ (doorsLoop allAreas elev areaIndex area apos di ds acc).2 u →
        u ∈ (doorsLoop allAreas elev areaIndex area apos di ds acc).2 v := by
  induction ds with
  | nil => intro di acc h; exact h
  | cons d rest ih =>
    intro di acc h
    unfold doorsLoop
    exact ih (di + 1) _ (doorStep_sym allAreas elev areaIndex area apos di d acc h)

theorem areasLoop_sym (allAreas : List Area) (elev : ℝ) (areas : List Area) :
    ∀ (i : ℕ) (acc : List NavNode × (ℕ → List ℕ)),
      (∀ u v, v ∈ acc.2 u → u ∈ acc.2 v) →
      ∀ u v, v ∈ (areasLoop allAreas elev i areas acc).2 u →
        u ∈ (areasLoop allAreas elev i areas acc).2 v := by
  induction areas with
  | nil => intro i acc h; exact h
  | cons a rest ih =>
    intro i acc h
    unfold areasLoop
    rcases hd : a.doors with _ | ds <;> rcases hp : a.position with _ | apos
    · exact ih (i + 1) acc h
    · exact ih (i + 1) acc h
    · exact ih (i + 1) acc h
    · exact ih (i + 1) _ (doorsLoop_sym allAreas elev i a apos ds 0 acc h)

theorem buildNavigationGraph_sym (b : BuildingData) (li : ℕ) :
    ∀ u v, v ∈ (buildNavigationGraph b li).edges u → u ∈ (buildNavigationGraph b li).edges v := by
  unfold buildNavigationGraph
  split
  · intro u v hv
    simp at hv
  · dsimp only
    refine areasLoop_sym _ _ _ 0 _ ?_
    intro u v hv
    simp at hv

/-- Claim C5: for every building description and level index, the edge
relation of the graph returned by `buildNavigationGraph` is symmetric:
whenever `v` appears in the neighbor list of `u`, `u` appears in the
neighbor list of `v`. -/
theorem c5_edges_symmetric (b : BuildingData) (li u v : ℕ)
    (h : v ∈ (buildNavigationGraph b li).edges u) :
    u ∈ (buildNavigationGraph b li).edges v :=
  buildNavigationGraph_sym b li u v h

/-- Witness for C5: in the one-room-one-door building the door node `1` is a
neighbor of the area node `0`, hence `0` is a neighbor of `1`. -/
theorem c5_edges_symmetric_witness :
    0 ∈ (buildNavigationGraph plainDoorBuilding 0).edges 1 :=
  c5_edges_symmetric plainDoorBuilding 0 0 1 (by
    simp [buildNavigationGraph, plainDoorBuilding, plainDoorLevel, areaNodesAux,
      areasLoop, doorsLoop, doorStep, pushPair, pushE, jsOrR, strTruthy, jsBool])

/-! Node-index alignment of the area-center nodes. -/

theorem get?_append_of_some {α : Type} {l m : List α} {i : ℕ} {x : α}
    (h : l.get? i = some x) : (l ++ m).get? i = some x := by
  induction l generalizing i with
  | nil => simp at h
  | cons a t ih =>
    cases i with
    | zero => simpa using h
    | succ n => simpa using ih (by simpa using h)

theorem areaNodesAux_get (elev : ℝ) (areas : List Area) :
    ∀ (k i : ℕ) (a : Area) (p : ℝ × ℝ),
      areas.get? i = some a → a.position = some p →
      (∀ j aj, j < i → areas.get? j = some aj → aj.position.isSome = true) →
      (areaNodesAux elev k areas).get? i =
        some { areaIndex := k + i, position := (p.1, elev + 0.5, p.2) } := by
  induction areas with
  | nil => intro k i a p h _ _; simp at h
  | cons a0 rest ih =>
    intro k i a p hget hpos hpre
    cases i with
    | zero =>
      simp only [List.get?] at hget
      cases hget
      simp [areaNodesAux, hpos]
    | succ n =>
      have h0 : a0.position.isSome = true := hpre 0 a0 (Nat.succ_pos _) rfl
      obtain ⟨p0, hp0⟩ := Option.isSome_iff_exists.mp h0
      unfold areaNodesAux
      rw [hp0]
      have hrec := ih (k + 1) n a p (by simpa using hget) hpos
        (fun j aj hj hg => hpre (j + 1) aj (by omega) (by simpa using hg))
      have harith : k + 1 + n = k + (n + 1) := by omega
      rw [harith] at hrec
      simpa using hrec

theorem doorsLoop_nodes_append (allAreas : List Area) (elev : ℝ) (areaIndex : ℕ)
    (area : Area) (apos : ℝ × ℝ) (ds : List Door) :
    ∀ (di : ℕ) (acc : List NavNode × (ℕ → List ℕ)),
      ∃ ext, (doorsLoop allAreas elev areaIndex area apos di ds acc).1 = acc.1 ++ ext := by
  induction ds with
  | nil => intro di acc; exact ⟨[], by simp [doorsLoop]⟩
  | cons d rest ih =>
    intro di acc
    unfold doorsLoop
    obtain ⟨ext, hext⟩ := ih (di + 1) (doorStep allAreas elev areaIndex area apos di d acc)
    rw [hext]
    unfold doorStep
    dsimp only
    exact ⟨_, by rw [List.append_assoc]⟩

theorem areasLoop_nodes_append (allAreas : List Area) (elev : ℝ) (areas : List Area) :
    ∀ (i : ℕ) (acc : List NavNode × (ℕ → List ℕ)),
      ∃ ext, (areasLoop allAreas elev i areas acc).1 = acc.1 ++ ext := by
  induction areas with
  | nil => intro i acc; exact ⟨[], by simp [areasLoop]⟩
  | cons a rest ih =>
    intro i acc
    unfold areasLoop
    rcases hd : a.doors with _ | ds <;> rcases hp : a.position with _ | apos
    · exact ih (i + 1) acc
    · exact ih (i + 1) acc
    · exact ih (i + 1) acc
    · obtain ⟨ext1, hext1⟩ := doorsLoop_nodes_append allAreas elev i a apos ds 0 acc
      obtain ⟨ext2, hext2⟩ := ih (i + 1) (doorsLoop allAreas elev i a apos 0 ds acc)
      rw [hext2, hext1, List.append_assoc]
      exact ⟨_, rfl⟩

/-- Claim C4 (amended): for every Level and every Area with a defined
position such that every area at a smaller index in that Level also has a
defined position, the area-center node appended by `buildNavigationGraph`
sits at graph index equal to that Area's sequence index within the Level's
areas list. -/
theorem c4_area_node_alignment (b : BuildingData) (li : ℕ) (level : BuildingLevel)
    (i : ℕ) (a : Area) (p : ℝ × ℝ)
    (hlevel : b.buildingLevels.get? li = some level)
    (harea : level.areas.get? i = some a)
    (hpos : a.position = some p)
    (hpre : ∀ j aj, j < i → level.areas.get? j = some aj → aj.position.isSome = true) :
    (buildNavigationGraph b li).nodes.get? i =
      some { areaIndex := i, position := (p.1, jsOrR level.elevation 0 + 0.5, p.2) } := by
  unfold buildNavigationGraph
  rw [hlevel]
  dsimp only
  obtain ⟨ext, hext⟩ := areasLoop_nodes_append level.areas (jsOrR level.elevation 0)
    level.areas 0 (areaNodesAux (jsOrR level.elevation 0) 0 level.areas, fun _ => [])
  rw [hext]
  have hbase := areaNodesAux_get (jsOrR level.elevation 0) level.areas 0 i a p harea hpos hpre
  rw [Nat.zero_add] at hbase
  exact get?_append_of_some hbase

/-- Counterexample for C4 as stated: in `gapLevel` the area at sequence index
1 has a defined position, yet the graph has a single node, that area's center
sits at graph index 0, and there is no node at graph index 1. -/
theorem c4_counterexample :
    (gapLevel.areas.get? 1).bind Area.position = some ((5 : ℝ), (7 : ℝ)) ∧
    (buildNavigationGraph gapBuilding 0).nodes.length = 1 ∧
    (buildNavigationGraph gapBuilding 0).nodes.get? 1 = none ∧
    (buildNavigationGraph gapBuilding 0).nodes.get? 0 =
      some { areaIndex := 1, position := ((5 : ℝ), (0.5 : ℝ), (7 : ℝ)) } := by
  refine ⟨rfl, ?_, ?_, ?_⟩ <;>
    norm_num [buildNavigationGraph, gapBuilding, gapLevel, areaNodesAux, areasLoop,
      jsOrR]

/-- Witness for C4 (amended): in the fully positioned `alignedLevel` the area
at index 1 gets the node at graph index 1. -/
theorem c4_area_node_alignment_witness :
    (buildNavigationGraph alignedBuilding 0).nodes.get? 1 =
      some { areaIndex := 1, position := ((3 : ℝ), jsOrR alignedLevel.elevation 0 + 0.5, (4 : ℝ)) } := by
  exact c4_area_node_alignment alignedBuilding 0 alignedLevel 1
    { name := "Q", position := some (3, 4) } (3, 4) rfl rfl rfl
    (by
      intro j aj hj hg
      interval_cases j
      simp only [List.get?] at hg
      cases hg
      rfl)

/-! Empty graphs and the straight-line fallback. -/

theorem areaNodesAux_nil (elev : ℝ) (areas : List Area)
    (h : ∀ a ∈ areas, a.position = none) : ∀ k, areaNodesAux elev k areas = [] := by
  induction areas with
  | nil => intro k; rfl
  | cons a rest ih =>
    intro k
    unfold areaNodesAux
    rw [h a (List.mem_cons_self a rest)]
    simpa using ih (fun x hx => h x (List.mem_cons_of_mem a hx)) (k + 1)

theorem areasLoop_skip (allAreas : List Area) (elev : ℝ) (areas : List Area)
    (h : ∀ a ∈ areas, a.position = none) :
    ∀ i acc, areasLoop allAreas elev i areas acc = acc := by
  induction areas with
  | nil => intro i acc; rfl
  | cons a rest ih =>
    intro i acc
    unfold areasLoop
    have hrest := ih (fun x hx => h x (List.mem_cons_of_mem a hx))
    rcases hd : a.doors with _ | ds <;>
      simp only [hd, h a (List.mem_cons_self a rest)] <;>
      exact hrest (i + 1) acc

theorem buildNavigationGraph_empty (b : BuildingData) (li : ℕ) (level : BuildingLevel)
    (hlevel : b.buildingLevels.get? li = some level)
    (hnone : ∀ a ∈ level.areas, a.position = none) :
    buildNavigationGraph b li = ⟨[], fun _ => []⟩ := by
  unfold buildNavigationGraph
  rw [hlevel]
  dsimp only
  rw [areasLoop_skip level.areas (jsOrR level.elevation 0) level.areas hnone,
    areaNodesAux_nil (jsOrR level.elevation 0) level.areas hnone 0]

/-- Claim C7: a level in which no area has a defined position yields the
empty navigation graph (no nodes, no edges), and `calculatePath` run against
that level (i.e. when the elevation matching selects it) returns the
straight-line fallback between the requested start and end. -/
theorem c7_unpositioned_level (b : BuildingData) (li : ℕ) (level : BuildingLevel)
    (hlevel : b.buildingLevels.get? li = some level)
    (hnone : ∀ a ∈ level.areas, a.position = none) :
    (buildNavigationGraph b li).nodes = [] ∧
    (∀ i, (buildNavigationGraph b li).edges i = []) ∧
    ∀ (fuel : ℕ) (start endP : Vec3),
      levelMatchIndex start.2.1 b.buildingLevels = some li →
      calculatePath fuel start endP b none = some (straightLinePath start endP 10) := by
  have hb := buildNavigationGraph_empty b li level hlevel hnone
  refine ⟨by rw [hb], fun i => by rw [hb], ?_⟩
  intro fuel start endP hmatch
  unfold calculatePath
  rw [hmatch]
  dsimp only
  rw [hb]
  simp

/-- Witness for C7: the single-level building whose only area has no
position, evaluated at a start point whose height matches the level. -/
theorem c7_unpositioned_level_witness :
    (buildNavigationGraph bareBuilding 0).nodes = [] ∧
    (buildNavigationGraph bareBuilding 0).edges 5 = [] ∧
    calculatePath 3 ((0 : ℝ), (0.5 : ℝ), (0 : ℝ)) ((9 : ℝ), (9 : ℝ), (9 : ℝ)) bareBuilding none =
      some (straightLinePath ((0 : ℝ), (0.5 : ℝ), (0 : ℝ)) ((9 : ℝ), (9 : ℝ), (9 : ℝ)) 10) := by
  have h := c7_unpositioned_level bareBuilding 0 bareLevel rfl
    (by intro a ha; simp [bareLevel] at ha; rw [ha])
  refine ⟨h.1, h.2.1 5, h.2.2 3 (0, 0.5, 0) (9, 9, 9) ?_⟩
  show levelMatchIndex 0.5 [bareLevel] = some 0
  unfold levelMatchIndex
  rw [if_pos]
  show |(0.5 : ℝ) - jsOrR bareLevel.elevation 0 - 0.5| < 1.5
  norm_num [bareLevel, jsOrR]

/-! The straight-line fallback and the shape of returned paths. -/

theorem straightLinePath_get (s e : Vec3) (steps i : ℕ) (h : i < steps + 1) :
    (straightLinePath s e steps).get? i =
      some (s.1 + (e.1 - s.1) * ((i : ℝ) / (steps : ℝ)),
        s.2.1 + (e.2.1 - s.2.1) * ((i : ℝ) / (steps : ℝ)),
        s.2.2 + (e.2.2 - s.2.2) * ((i : ℝ) / (steps : ℝ))) := by
  unfold straightLinePath
  rw [List.get?_eq_getElem?, List.getElem?_map, List.getElem?_range h]
  rfl

theorem straightLinePath_length (s e : Vec3) (steps : ℕ) :
    (straightLinePath s e steps).length = steps + 1 := by
  simp [straightLinePath]

theorem straightLinePath_ne_nil (s e : Vec3) (steps : ℕ) :
    straightLinePath s e steps ≠ [] := by
  intro h
  have := straightLinePath_length s e steps
  rw [h] at this
  simp at this

theorem straightLinePath_head (s e : Vec3) (steps : ℕ) :
    (straightLinePath s e steps).head? = some s := by
  have h0 : (straightLinePath s e steps).get? 0 = some (s.1 + (e.1 - s.1) * ((0 : ℝ) / (steps : ℝ)),
      s.2.1 + (e.2.1 - s.2.1) * ((0 : ℝ) / (steps : ℝ)),
      s.2.2 + (e.2.2 - s.2.2) * ((0 : ℝ) / (steps : ℝ))) := by
    have := straightLinePath_get s e steps 0 (Nat.succ_pos _)
    simpa using this
  have hpoint : (s.1 + (e.1 - s.1) * ((0 : ℝ) / (steps : ℝ)),
      s.2.1 + (e.2.1 - s.2.1) * ((0 : ℝ) / (steps : ℝ)),
      s.2.2 + (e.2.2 - s.2.2) * ((0 : ℝ) / (steps : ℝ))) = s := by
    obtain ⟨x, y, z⟩ := s
    simp
  rw [hpoint] at h0
  rcases hl : straightLinePath s e steps with _ | ⟨a, rest⟩
  · exact absurd hl (straightLinePath_ne_nil s e steps)
  · rw [hl] at h0
    simpa using h0

theorem straightLinePath_last (s e : Vec3) (steps : ℕ) (hs : steps ≠ 0) :
    (straightLinePath s e steps).getLast? = some e := by
  have hlen := straightLinePath_length s e steps
  rw [List.getLast?_eq_getElem?, hlen, ← List.get?_eq_getElem?]
  have hlt : steps + 1 - 1 < steps + 1 := by omega
  rw [show steps + 1 - 1 = steps from rfl]
  rw [straightLinePath_get s e steps steps (by omega)]
  have hdiv : ((steps : ℝ) / (steps : ℝ)) = 1 := by
    rw [div_self]
    exact_mod_cast hs
  rw [hdiv]
  obtain ⟨x, y, z⟩ := e
  obtain ⟨a', b', c'⟩ := s
  simp only [mul_one, Option.some.injEq, Prod.mk.injEq]
  refine ⟨by ring, by ring, by ring⟩

theorem getLast?_cons_concat (x y : Vec3) (l : List Vec3) :
    (x :: (l ++ [y])).getLast? = some y := by
  rw [← List.cons_append, List.getLast?_concat]

/-- Claim C8: on every input on which it returns, `calculatePath` returns a
non-empty sequence whose first element is the requested start and whose last
element is the requested end; the straight-line fallback it can degrade to is
the 10-segment subdivision with 11 evenly spaced points inclusive of both
ends. -/
theorem c8_never_empty (fuel : ℕ) (start endP : Vec3) (b : BuildingData)
    (g : Option NavGraph) (r : List Vec3)
    (h : calculatePath fuel start endP b g = some r) :
    r ≠ [] ∧ r.head? = some start ∧ r.getLast? = some endP ∧
    (straightLinePath start endP 10).length = 11 ∧
    ∀ i : ℕ, i < 11 → (straightLinePath start endP 10).get? i =
      some (start.1 + (endP.1 - start.1) * ((i : ℝ) / (10 : ℝ)),
        start.2.1 + (endP.2.1 - start.2.1) * ((i : ℝ) / (10 : ℝ)),
        start.2.2 + (endP.2.2 - start.2.2) * ((i : ℝ) / (10 : ℝ))) := by
  have hget : ∀ i : ℕ, i < 11 → (straightLinePath start endP 10).get? i =
      some (start.1 + (endP.1 - start.1) * ((i : ℝ) / (10 : ℝ)),
        start.2.1 + (endP.2.1 - start.2.1) * ((i : ℝ) / (10 : ℝ)),
        start.2.2 + (endP.2.2 - start.2.2) * ((i : ℝ) / (10 : ℝ))) := by
    intro i hi
    have := straightLinePath_get start endP 10 i hi
    norm_num at this ⊢
    exact this
  have hslp : straightLinePath start endP 10 ≠ [] ∧
      (straightLinePath start endP 10).head? = some start ∧
      (straightLinePath start endP 10).getLast? = some endP :=
    ⟨straightLinePath_ne_nil start endP 10, straightLinePath_head start endP 10,
      straightLinePath_last start endP 10 (by norm_num)⟩
  have hlen := straightLinePath_length start endP 10
  unfold calculatePath at h
  split at h
  · cases h
    exact ⟨hslp.1, hslp.2.1, hslp.2.2, hlen, hget⟩
  · dsimp only at h
    split at h
    · cases h
      exact ⟨hslp.1, hslp.2.1, hslp.2.2, hlen, hget⟩
    · split at h
      · exact absurd h (by simp)
      · split at h
        · cases h
          exact ⟨hslp.1, hslp.2.1, hslp.2.2, hlen, hget⟩
        · cases h
          exact ⟨by simp, rfl, getLast?_cons_concat _ _ _, hlen, hget⟩

/-- Witness for C8: the empty building forces the fallback; the result is the
11-point straight line from (0,0,0) to (1,2,3) with matching endpoints. -/
theorem c8_never_empty_witness :
    straightLinePath ((0 : ℝ), (0 : ℝ), (0 : ℝ)) ((1 : ℝ), (2 : ℝ), (3 : ℝ)) 10 ≠ [] ∧
    (straightLinePath ((0 : ℝ), (0 : ℝ), (0 : ℝ)) ((1 : ℝ), (2 : ℝ), (3 : ℝ)) 10).head? =
      some ((0 : ℝ), (0 : ℝ), (0 : ℝ)) ∧
    (straightLinePath ((0 : ℝ), (0 : ℝ), (0 : ℝ)) ((1 : ℝ), (2 : ℝ), (3 : ℝ)) 10).getLast? =
      some ((1 : ℝ), (2 : ℝ), (3 : ℝ)) ∧
    (straightLinePath ((0 : ℝ), (0 : ℝ), (0 : ℝ)) ((1 : ℝ), (2 : ℝ), (3 : ℝ)) 10).length = 11 := by
  have h := c8_never_empty 0 ((0 : ℝ), (0 : ℝ), (0 : ℝ)) ((1 : ℝ), (2 : ℝ), (3 : ℝ))
    emptyBuilding none
    (straightLinePath ((0 : ℝ), (0 : ℝ), (0 : ℝ)) ((1 : ℝ), (2 : ℝ), (3 : ℝ)) 10) rfl
  exact ⟨h.1, h.2.1, h.2.2.1, h.2.2.2.1⟩

/-! `findNearestExit` as a running minimum over its candidate list. -/

theorem minScan_append (pos : Vec3) (l1 l2 : List Vec3) :
    ∀ acc, minScan pos (l1 ++ l2) acc = minScan pos l2 (minScan pos l1 acc) := by
  induction l1 with
  | nil => intro acc; rfl
  | cons c rest ih =>
    intro acc
    rw [List.cons_append]
    rw [show minScan pos (c :: (rest ++ l2)) acc = minScan pos (rest ++ l2)
        (match acc.2 with
         | none => (some c, some (distance3D pos c))
         | some m => if distance3D pos c < m then (some c, some (distance3D pos c)) else acc)
      from rfl]
    rw [ih]
    rfl

theorem exit_doors_fold (agentPos exitPos : Vec3) (ds : List Door) :
    ∀ acc : Option Vec3 × Option ℝ,
      ds.foldl
        (fun acc2 door =>
          if jsBool door.isExit then
            match acc2.2 with
            | none => (some exitPos, some (distance3D agentPos exitPos))
            | some m =>
              if distance3D agentPos exitPos < m then
                (some exitPos, some (distance3D agentPos exitPos))
              else acc2
          else acc2) acc =
      minScan agentPos ((ds.filter fun d => jsBool d.isExit).map fun _ => exitPos) acc := by
  induction ds with
  | nil => intro acc; rfl
  | cons d rest ih =>
    intro acc
    rw [List.foldl_cons]
    by_cases hx : jsBool d.isExit
    · rw [List.filter_cons_of_pos (by simpa using hx)]
      rw [List.map_cons]
      unfold minScan
      rw [if_pos hx]
      exact ih _
    · rw [List.filter_cons_of_neg (by simpa using hx)]
      rw [if_neg hx]
      exact ih acc

theorem findNearestExit_minScan (agent : Agent) (level : BuildingLevel) :
    ∀ (areas : List Area) (acc : Option Vec3 × Option ℝ),
      areas.foldl
        (fun acc area =>
          match area.doors, area.position with
          | some ds, some apos =>
            ds.foldl
              (fun acc2 door =>
                if jsBool door.isExit then
                  let exitPos : Vec3 := (apos.1, jsOrR level.elevation 0 + 0.5, apos.2)
                  let dist := distance3D agent.position exitPos
                  match acc2.2 with
                  | none => (some exitPos, some dist)
                  | some m => if dist < m then (some exitPos, some dist) else acc2
                else acc2)
              acc
          | _, _ => acc) acc =
      minScan agent.position (exitCandidates (jsOrR level.elevation 0) areas) acc := by
  intro areas
  induction areas with
  | nil => intro acc; rfl
  | cons a rest ih =>
    intro acc
    rw [List.foldl_cons]
    unfold exitCandidates
    rcases hd : a.doors with _ | ds <;> rcases hp : a.position with _ | apos <;>
      simp only [hd, hp]
    · exact ih acc
    · exact ih acc
    · exact ih acc
    · rw [minScan_append]
      rw [exit_doors_fold agent.position (apos.1, jsOrR level.elevation 0 + 0.5, apos.2) ds acc]
      exact ih _

theorem minScan_stays_some (pos : Vec3) (cands : List Vec3) :
    ∀ (p0 : Vec3) (m0 : ℝ), ∃ p m,
      minScan pos cands (some p0, some m0) = (some p, some m) := by
  induction cands with
  | nil => exact fun p0 m0 => ⟨p0, m0, rfl⟩
  | cons c rest ih =>
    intro p0 m0
    unfold minScan
    dsimp only
    by_cases hlt : distance3D pos c < m0
    · rw [if_pos hlt]
      exact ih c (distance3D pos c)
    · rw [if_neg hlt]
      exact ih p0 m0

theorem minScan_spec (pos : Vec3) (cands : List Vec3) :
    ∀ (p0 : Vec3) (m0 : ℝ), m0 = distance3D pos p0 →
      ∃ p m, minScan pos cands (some p0, some m0) = (some p, some m) ∧
        m = distance3D pos p ∧ (p = p0 ∨ p ∈ cands) ∧ m ≤ m0 ∧
        ∀ q ∈ cands, m ≤ distance3D pos q := by
  induction cands with
  | nil =>
    intro p0 m0 h
    exact ⟨p0, m0, rfl, h, Or.inl rfl, le_refl m0, by simp⟩
  | cons c rest ih =>
    intro p0 m0 hm
    unfold minScan
    dsimp only
    by_cases hlt : distance3D pos c < m0
    · rw [if_pos hlt]
      obtain ⟨p, m, heq, hdist, hmem, hle, hall⟩ := ih c (distance3D pos c) rfl
      refine ⟨p, m, heq, hdist, ?_, le_trans hle (le_of_lt hlt), ?_⟩
      · rcases hmem with h | h
        · exact Or.inr (h ▸ List.mem_cons_self c rest)
        · exact Or.inr (List.mem_cons_of_mem c h)
      · intro q hq
        rcases List.mem_cons.mp hq with h | h
        · exact h ▸ hle
        · exact hall q h
    · rw [if_neg hlt]
      obtain ⟨p, m, heq, hdist, hmem, hle, hall⟩ := ih p0 m0 hm
      refine ⟨p, m, heq, hdist, ?_, hle, ?_⟩
      · rcases hmem with h | h
        · exact Or.inl h
        · exact Or.inr (List.mem_cons_of_mem c h)
      · intro q hq
        rcases List.mem_cons.mp hq with h | h
        · exact h ▸ le_trans hle (le_of_not_lt hlt)
        · exact hall q h

theorem findNearestExit_eq (agent : Agent) (b : BuildingData) (level : BuildingLevel)
    (hlevel : b.buildingLevels.get? agent.levelIndex = some level) :
    findNearestExit agent b =
      (minScan agent.position (exitCandidates (jsOrR level.elevation 0) level.areas)
        (none, none)).1 := by
  unfold findNearestExit
  rw [hlevel]
  dsimp only
  rw [findNearestExit_minScan agent level level.areas (none, none)]

/-- Claim C6 (amended): `findNearestExit` returns `none` exactly when no
exit-flagged door lies in an area of the agent's level that has both a doors
list and a defined position (exit doors of areas without a position are
ignored); otherwise it returns one of the candidate positions (owning area's
center raised 0.5 above the level elevation) at minimum Euclidean distance
from the agent. -/
theorem c6_nearest_exit (agent : Agent) (b : BuildingData) (level : BuildingLevel)
    (hlevel : b.buildingLevels.get? agent.levelIndex = some level) :
    (findNearestExit agent b = none ↔
      exitCandidates (jsOrR level.elevation 0) level.areas = []) ∧
    ∀ p, findNearestExit agent b = some p →
      p ∈ exitCandidates (jsOrR level.elevation 0) level.areas ∧
      ∀ q ∈ exitCandidates (jsOrR level.elevation 0) level.areas,
        distance3D agent.position p ≤ distance3D agent.position q := by
  have heq := findNearestExit_eq agent b level hlevel
  rcases hc : exitCandidates (jsOrR level.elevation 0) level.areas with _ | ⟨c, rest⟩
  · rw [hc] at heq
    constructor
    · rw [heq]
      simp [minScan]
    · intro p hp
      rw [heq] at hp
      simp [minScan] at hp
  · rw [hc] at heq
    have hstep : minScan agent.position (c :: rest) ((none : Option Vec3), (none : Option ℝ)) =
        minScan agent.position rest (some c, some (distance3D agent.position c)) := rfl
    obtain ⟨p, m, hpm, hdist, hmem, hle, hall⟩ :=
      minScan_spec agent.position rest c (distance3D agent.position c) rfl
    rw [hstep, hpm] at heq
    constructor
    · rw [heq]
      simp
    · intro p' hp'
      rw [heq] at hp'
      have hp'' : p' = p := by simpa using hp'.symm
      subst hp''
      constructor
      · rcases hmem with h | h
        · exact h ▸ List.mem_cons_self c rest
        · exact List.mem_cons_of_mem c h
      · intro q hq
        rcases List.mem_cons.mp hq with h | h
        · rw [h, ← hdist]
          exact hle
        · rw [← hdist]
          exact hall q h

/-- Counterexample for C6 as stated: `hiddenExitLevel` does contain a door
flagged `isExit` (in an area without a position), yet `findNearestExit`
returns `none`. -/
theorem c6_counterexample :
    findNearestExit hiddenExitAgent hiddenExitBuilding = none ∧
    levelHasExitDoor hiddenExitLevel = true := by
  constructor
  · rfl
  · rfl

/-- Witness for C6 (amended): on `exitWBuilding` the equivalence holds and the
returned exit (2, 0.5, 3) is one of the scanned candidates. -/
theorem c6_nearest_exit_witness :
    (findNearestExit exitWAgent exitWBuilding = none ↔
      exitCandidates (jsOrR exitWLevel.elevation 0) exitWLevel.areas = []) ∧
    ((2 : ℝ), (0.5 : ℝ), (3 : ℝ)) ∈ exitCandidates (jsOrR exitWLevel.elevation 0) exitWLevel.areas := by
  have h := c6_nearest_exit exitWAgent exitWBuilding exitWLevel rfl
  have hval : findNearestExit exitWAgent exitWBuilding = some ((2 : ℝ), (0.5 : ℝ), (3 : ℝ)) := by
    show (_ : Option Vec3 × Option ℝ).1 = _
    norm_num [findNearestExit, exitWBuilding, exitWLevel, exitWAgent, jsBool, jsOrR]
  exact ⟨h.1, (h.2 _ hval).1⟩

/-! The motion integrator. -/

theorem pathLen_nonneg (p : Vec3) (ws : List Vec3) : 0 ≤ pathLen p ws := by
  induction ws generalizing p with
  | nil => exact le_refl 0
  | cons w rest ih =>
    unfold pathLen
    have := distance3D_nonneg p w
    have := ih w
    linarith

theorem pathLen_cons (p w : Vec3) (l : List Vec3) :
    pathLen p (w :: l) = distance3D p w + pathLen w l := rfl

theorem sum_pos_eq_nil {l : List ℝ} (hpos : ∀ x ∈ l, 0 < x) (hsum : l.sum = 0) :
    l = [] := by
  cases l with
  | nil => rfl
  | cons x rest =>
    exfalso
    have hx : 0 < x := hpos x (List.mem_cons_self _ _)
    have hrest : 0 ≤ rest.sum :=
      List.sum_nonneg fun y hy => le_of_lt (hpos y (List.mem_cons_of_mem x hy))
    rw [List.sum_cons] at hsum
    linarith

theorem dist_lerp (p q : Vec3) (r : ℝ) (h0 : 0 ≤ r) (h1 : r ≤ 1) :
    distance3D (p.1 + (q.1 - p.1) * r, p.2.1 + (q.2.1 - p.2.1) * r,
      p.2.2 + (q.2.2 - p.2.2) * r) q = (1 - r) * distance3D p q := by
  obtain ⟨x, y, z⟩ := p
  obtain ⟨a, b, c⟩ := q
  simp only [distance3D]
  have h : (x + (a - x) * r - a) * (x + (a - x) * r - a) +
      (y + (b - y) * r - b) * (y + (b - y) * r - b) +
      (z + (c - z) * r - c) * (z + (c - z) * r - c) =
      (1 - r) ^ 2 * ((x - a) * (x - a) + (y - b) * (y - b) + (z - c) * (z - c)) := by
    ring
  rw [h, Real.sqrt_mul (sq_nonneg _), Real.sqrt_sq_eq_abs, abs_of_nonneg (by linarith)]

theorem moveStep_snap (a : Agent) (dt : ℝ) (pr : AgentProfile) (target : Vec3)
    (rest : List Vec3) (h : distance3D a.position target ≤ pr.speed * dt) :
    moveStep a dt pr target rest =
      { a with
          position := target
          path := some rest
          pathHistory := a.pathHistory ++ [target]
          evacuated := rest.isEmpty
          evacuationTime := if rest.isEmpty then some (jsOrR a.evacuationTime 0) else none } := by
  unfold moveStep
  dsimp only
  rw [if_pos h]

theorem moveStep_fractional (a : Agent) (dt : ℝ) (pr : AgentProfile) (target : Vec3)
    (rest : List Vec3) (h : ¬ distance3D a.position target ≤ pr.speed * dt) :
    moveStep a dt pr target rest =
      { a with
          position :=
          (a.position.1 + (target.1 - a.position.1) * (pr.speed * dt / distance3D a.position target),
            a.position.2.1 + (target.2.1 - a.position.2.1) * (pr.speed * dt / distance3D a.position target),
            a.position.2.2 + (target.2.2 - a.position.2.2) * (pr.speed * dt / distance3D a.position target)) } := by
  unfold moveStep
  dsimp only
  rw [if_neg h]

theorem moveAgent_eq_moveStep (a : Agent) (dt : ℝ) (profiles : List AgentProfile)
    (pr : AgentProfile) (target : Vec3) (rest : List Vec3)
    (hpath : a.path = some (target :: rest)) (hev : a.evacuated = false)
    (hpr : profiles.find? (fun p => p.id == a.profileId) = some pr) :
    moveAgent a dt profiles = moveStep a dt pr target rest := by
  unfold moveAgent
  rw [hpath]
  dsimp only
  rw [hev, if_neg Bool.false_ne_true, hpr]

/-- Claim C9 (amended): for every agent with a fixed multi-waypoint path whose
segments all have positive length, a resolvable profile of positive speed, and
a sequence of positive `dt` values that never crosses a waypoint mid-tick and
whose total, at the profile speed, equals exactly the path's total traversal
length, repeatedly applying `moveAgent` ends with `evacuated = true`, an empty
remaining path, and position equal to the last waypoint. -/
theorem c9_exact_arrival (profiles : List AgentProfile) (dts : List ℝ) (a : Agent)
    (target : Vec3) (ws : List Vec3) (pr : AgentProfile)
    (hpath : a.path = some (target :: ws))
    (hev : a.evacuated = false)
    (hpr : profiles.find? (fun p => p.id == a.profileId) = some pr)
    (hspeed : 0 < pr.speed)
    (hd0 : 0 < distance3D a.position target)
    (hchain : chainPos (target :: ws))
    (hno : noOvershootRun profiles a dts)
    (hpos : ∀ dt ∈ dts, 0 < dt)
    (hsum : pr.speed * dts.sum = pathLen a.position (target :: ws)) :
    (runMoves profiles a dts).evacuated = true ∧
    (runMoves profiles a dts).path = some [] ∧
    (runMoves profiles a dts).position = (target :: ws).getLast (List.cons_ne_nil target ws) := by
  induction dts generalizing a target ws with
  | nil =>
    exfalso
    have hlen : 0 < pathLen a.position (target :: ws) := by
      unfold pathLen
      have := pathLen_nonneg target ws
      linarith
    rw [List.sum_nil, mul_zero] at hsum
    linarith
  | cons dt rest ih =>
    have htick := hno.1
    have hno2 := hno.2
    have hbound : pr.speed * dt ≤ distance3D a.position target :=
      htick.2 pr target ws hpr hpath hev
    have hdt : 0 < dt := hpos dt (List.mem_cons_self _ _)
    have hstep : moveAgent a dt profiles = moveStep a dt pr target ws :=
      moveAgent_eq_moveStep a dt profiles pr target ws hpath hev hpr
    have hrun : runMoves profiles a (dt :: rest) =
        runMoves profiles (moveAgent a dt profiles) rest := rfl
    rw [hrun, hstep]
    rw [hstep] at hno2
    rw [List.sum_cons, mul_add] at hsum
    by_cases hsnap : distance3D a.position target ≤ pr.speed * dt
    · have heqd : distance3D a.position target = pr.speed * dt := le_antisymm hsnap hbound
      rw [moveStep_snap a dt pr target ws hsnap]
      rw [moveStep_snap a dt pr target ws hsnap] at hno2
      cases ws with
      | nil =>
        have hrest : rest = [] := by
          apply sum_pos_eq_nil (fun x hx => hpos x (List.mem_cons_of_mem dt hx))
          have : pathLen a.position [target] = distance3D a.position target := by
            unfold pathLen pathLen
            ring
          rw [this, heqd] at hsum
          have : pr.speed * rest.sum = 0 := by linarith
          exact (mul_eq_zero.mp this).resolve_left (ne_of_gt hspeed)
        subst hrest
        exact ⟨rfl, rfl, rfl⟩
      | cons w2 ws' =>
        have hlast : (target :: w2 :: ws').getLast (List.cons_ne_nil target (w2 :: ws')) =
            (w2 :: ws').getLast (List.cons_ne_nil w2 ws') := List.getLast_cons _
        rw [hlast]
        refine ih _ w2 ws' rfl rfl hpr hchain.1 hchain.2 hno2
          (fun x hx => hpos x (List.mem_cons_of_mem dt hx)) ?_
        show pr.speed * rest.sum = pathLen target (w2 :: ws')
        have hexp : pathLen a.position (target :: w2 :: ws') =
            distance3D a.position target + pathLen target (w2 :: ws') := rfl
        rw [hexp, heqd] at hsum
        linarith
    · have hlt : pr.speed * dt < distance3D a.position target := lt_of_not_le hsnap
      rw [moveStep_fractional a dt pr target ws hsnap]
      rw [moveStep_fractional a dt pr target ws hsnap] at hno2
      have hr0 : 0 ≤ pr.speed * dt / distance3D a.position target :=
        div_nonneg (le_of_lt (mul_pos hspeed hdt)) (le_of_lt hd0)
      have hr1 : pr.speed * dt / distance3D a.position target ≤ 1 :=
        (div_le_one hd0).mpr (le_of_lt hlt)
      have hnewdist : distance3D
          (a.position.1 + (target.1 - a.position.1) * (pr.speed * dt / distance3D a.position target),
            a.position.2.1 + (target.2.1 - a.position.2.1) * (pr.speed * dt / distance3D a.position target),
            a.position.2.2 + (target.2.2 - a.position.2.2) * (pr.speed * dt / distance3D a.position target))
          target = distance3D a.position target - pr.speed * dt := by
        rw [dist_lerp a.position target _ hr0 hr1]
        field_simp
      refine ih _ target ws hpath hev hpr ?_ hchain hno2
        (fun x hx => hpos x (List.mem_cons_of_mem dt hx)) ?_
      · show (0 : ℝ) < distance3D _ target
        rw [hnewdist]
        linarith
      · show pr.speed * rest.sum = pathLen _ (target :: ws)
        have hexp : pathLen
            (a.position.1 + (target.1 - a.position.1) * (pr.speed * dt / distance3D a.position target),
              a.position.2.1 + (target.2.1 - a.position.2.1) * (pr.speed * dt / distance3D a.position target),
              a.position.2.2 + (target.2.2 - a.position.2.2) * (pr.speed * dt / distance3D a.position target))
            (target :: ws) = (distance3D a.position target - pr.speed * dt) + pathLen target ws := by
          rw [pathLen_cons, hnewdist]
        rw [hexp]
        have hexp2 : pathLen a.position (target :: ws) =
            distance3D a.position target + pathLen target ws := rfl
        rw [hexp2] at hsum
        linarith

theorem pathLen_nil (p : Vec3) : pathLen p [] = 0 := rfl

theorem dist_walk01 : distance3D walkAgent.position ((1 : ℝ), (0 : ℝ), (0 : ℝ)) = 1 := by
  rw [show walkAgent.position = ((0 : ℝ), (0 : ℝ), (0 : ℝ)) from rfl, distance3D_x]
  norm_num

theorem dist_walk12 : distance3D ((1 : ℝ), (0 : ℝ), (0 : ℝ)) ((2 : ℝ), (0 : ℝ), (0 : ℝ)) = 1 := by
  rw [distance3D_x]
  norm_num

theorem walk_snap (dt : ℝ) (h : (1 : ℝ) ≤ walkProfile.speed * dt) :
    moveAgent walkAgent dt [walkProfile] = walkAgentMid := by
  rw [moveAgent_eq_moveStep walkAgent dt [walkProfile] walkProfile
      ((1 : ℝ), (0 : ℝ), (0 : ℝ)) [((2 : ℝ), (0 : ℝ), (0 : ℝ))] rfl rfl rfl]
  rw [moveStep_snap _ _ _ _ _ (by rw [dist_walk01]; exact h)]
  rfl

/-- Counterexample for C9 as stated: `walkAgent` has the two-waypoint path
(1,0,0), (2,0,0) of total length 2 and a profile of speed 1, and the ticks
3/2 and 1/2 sum exactly to the total traversal time 2; yet because the
overshoot of the first tick is discarded at the waypoint, the run ends not
evacuated at (3/2, 0, 0) instead of at the last waypoint. -/
theorem c9_counterexample :
    walkProfile.speed * ([(3 / 2 : ℝ), (1 / 2 : ℝ)].sum) =
      pathLen walkAgent.position [((1 : ℝ), (0 : ℝ), (0 : ℝ)), ((2 : ℝ), (0 : ℝ), (0 : ℝ))] ∧
    (runMoves [walkProfile] walkAgent [(3 / 2 : ℝ), (1 / 2 : ℝ)]).evacuated = false ∧
    (runMoves [walkProfile] walkAgent [(3 / 2 : ℝ), (1 / 2 : ℝ)]).position =
      ((3 / 2 : ℝ), (0 : ℝ), (0 : ℝ)) := by
  have hm1 : moveAgent walkAgent (3 / 2) [walkProfile] = walkAgentMid :=
    walk_snap (3 / 2) (by norm_num [walkProfile])
  have hd12 : distance3D walkAgentMid.position ((2 : ℝ), (0 : ℝ), (0 : ℝ)) = 1 := by
    rw [show walkAgentMid.position = ((1 : ℝ), (0 : ℝ), (0 : ℝ)) from rfl]
    exact dist_walk12
  have hnot : ¬ distance3D walkAgentMid.position ((2 : ℝ), (0 : ℝ), (0 : ℝ)) ≤
      walkProfile.speed * (1 / 2) := by
    rw [hd12]
    norm_num [walkProfile]
  have hm2eq := moveAgent_eq_moveStep walkAgentMid (1 / 2) [walkProfile] walkProfile
    ((2 : ℝ), (0 : ℝ), (0 : ℝ)) [] rfl rfl rfl
  have hm2 := moveStep_fractional walkAgentMid (1 / 2) walkProfile
    ((2 : ℝ), (0 : ℝ), (0 : ℝ)) [] hnot
  have hrun : runMoves [walkProfile] walkAgent [(3 / 2 : ℝ), (1 / 2 : ℝ)] =
      moveAgent (moveAgent walkAgent (3 / 2) [walkProfile]) (1 / 2) [walkProfile] := rfl
  refine ⟨?_, ?_, ?_⟩
  · rw [pathLen_cons, dist_walk01, pathLen_cons, dist_walk12, pathLen_nil]
    norm_num [walkProfile]
  · rw [hrun, hm1, hm2eq, hm2]
    rfl
  · rw [hrun, hm1, hm2eq, hm2]
    show (walkAgentMid.position.1 + _, walkAgentMid.position.2.1 + _,
      walkAgentMid.position.2.2 + _) = _
    rw [show walkAgentMid.position = ((1 : ℝ), (0 : ℝ), (0 : ℝ)) from rfl, dist_walk12]
    norm_num [walkProfile]

/-- Witness for C9 (amended): ticking `walkAgent` with dt = 1 twice (each tick
exactly reaching a waypoint, total exactly the traversal time) ends evacuated
at the last waypoint (2,0,0). -/
theorem c9_exact_arrival_witness :
    (runMoves [walkProfile] walkAgent [(1 : ℝ), (1 : ℝ)]).evacuated = true ∧
    (runMoves [walkProfile] walkAgent [(1 : ℝ), (1 : ℝ)]).path = some [] ∧
    (runMoves [walkProfile] walkAgent [(1 : ℝ), (1 : ℝ)]).position =
      ((2 : ℝ), (0 : ℝ), (0 : ℝ)) := by
  have hm1 : moveAgent walkAgent 1 [walkProfile] = walkAgentMid :=
    walk_snap 1 (by norm_num [walkProfile])
  have hd12 : distance3D walkAgentMid.position ((2 : ℝ), (0 : ℝ), (0 : ℝ)) = 1 := by
    rw [show walkAgentMid.position = ((1 : ℝ), (0 : ℝ), (0 : ℝ)) from rfl]
    exact dist_walk12
  have tick1 : tickOk [walkProfile] walkAgent 1 := by
    refine ⟨by norm_num, ?_⟩
    intro pr target restPath hpr hpath hev
    rw [show List.find? (fun p => p.id == walkAgent.profileId) [walkProfile] =
      some walkProfile from rfl] at hpr
    injection hpr with hpr
    subst hpr
    rw [show walkAgent.path = some [((1 : ℝ), (0 : ℝ), (0 : ℝ)), ((2 : ℝ), (0 : ℝ), (0 : ℝ))]
      from rfl] at hpath
    injection hpath with hpath
    injection hpath with hpath1 hpath2
    subst hpath1
    rw [dist_walk01]
    norm_num [walkProfile]
  have tick2 : tickOk [walkProfile] walkAgentMid 1 := by
    refine ⟨by norm_num, ?_⟩
    intro pr target restPath hpr hpath hev
    rw [show List.find? (fun p => p.id == walkAgentMid.profileId) [walkProfile] =
      some walkProfile from rfl] at hpr
    injection hpr with hpr
    subst hpr
    rw [show walkAgentMid.path = some [((2 : ℝ), (0 : ℝ), (0 : ℝ))] from rfl] at hpath
    injection hpath with hpath
    injection hpath with hpath1 hpath2
    subst hpath1
    rw [hd12]
    norm_num [walkProfile]
  have hno : noOvershootRun [walkProfile] walkAgent [(1 : ℝ), (1 : ℝ)] := by
    refine ⟨tick1, ?_⟩
    show noOvershootRun [walkProfile] (moveAgent walkAgent 1 [walkProfile]) [(1 : ℝ)]
    rw [hm1]
    exact ⟨tick2, trivial⟩
  have h := c9_exact_arrival [walkProfile] [(1 : ℝ), (1 : ℝ)] walkAgent
    ((1 : ℝ), (0 : ℝ), (0 : ℝ)) [((2 : ℝ), (0 : ℝ), (0 : ℝ))] walkProfile rfl rfl rfl
    (by norm_num [walkProfile])
    (by rw [dist_walk01]; norm_num)
    (by
      show (0 : ℝ) < distance3D ((1 : ℝ), (0 : ℝ), (0 : ℝ)) ((2 : ℝ), (0 : ℝ), (0 : ℝ)) ∧ True
      exact ⟨by rw [dist_walk12]; norm_num, trivial⟩)
    hno
    (by
      intro dt hdt
      rcases List.mem_cons.mp hdt with rfl | h2
      · norm_num
      · rcases List.mem_cons.mp h2 with rfl | h3
        · norm_num
        · simp at h3)
    (by
      rw [pathLen_cons, dist_walk01, pathLen_cons, dist_walk12, pathLen_nil]
      norm_num [walkProfile])
  exact ⟨h.1, h.2.1, h.2.2⟩

/-! Concrete evaluation of the two-area scenario. -/

theorem distance3D_z (x y a b : ℝ) : distance3D (x, y, a) (x, y, b) = |a - b| := by
  simp only [distance3D, sub_self, mul_zero, zero_mul, zero_add, add_zero]
  exact Real.sqrt_mul_self_eq_abs (a - b)

theorem sala_isEmpty : ("SALA" : String).isEmpty = false := rfl

theorem inc_sala_sala : jsIncludes (strLower "SALA") (strLower (jsStr (some "SALA"))) = true := rfl

theorem inc_cocina_sala : jsIncludes (strLower "COCINA") (strLower (jsStr (some "SALA"))) = false := rfl

theorem twoArea_nodes :
    (buildNavigationGraph twoAreaBuilding 0).nodes =
      [⟨0, ((0 : ℝ), (0.5 : ℝ), (0 : ℝ)), none, none⟩,
       ⟨1, ((3 : ℝ), (0.5 : ℝ), (0 : ℝ)), none, none⟩,
       ⟨0, ((0 : ℝ), (0.5 : ℝ), (1 : ℝ)), some true, some true⟩,
       ⟨1, ((3 : ℝ), (0.5 : ℝ), (1 : ℝ)), some true, none⟩] := by
  norm_num [buildNavigationGraph, twoAreaBuilding, twoAreaLevel, salaArea, cocinaArea,
    salaExitDoor, cocinaDoor, areaNodesAux, areasLoop, doorsLoop, doorStep, jsOrR, jsLenOr,
    strTruthy, jsBool, sala_isEmpty, inc_sala_sala, inc_cocina_sala]

theorem twoArea_edges :
    ∀ i, (buildNavigationGraph twoAreaBuilding 0).edges i =
      if i = 0 then [2, 3] else if i = 1 then [3] else if i = 2 then [0]
      else if i = 3 then [1, 0] else [] := by
  intro i
  norm_num [buildNavigationGraph, twoAreaBuilding, twoAreaLevel, salaArea, cocinaArea,
    salaExitDoor, cocinaDoor, areaNodesAux, areasLoop, doorsLoop, doorStep, jsOrR, jsLenOr,
    strTruthy, jsBool, sala_isEmpty, inc_sala_sala, inc_cocina_sala, pushPair, pushE]
  by_cases h0 : i = 0
  · simp [h0]
  · by_cases h1 : i = 1
    · simp [h1]
    · by_cases h2 : i = 2
      · simp [h2]
      · by_cases h3 : i = 3
        · simp [h3]
        · simp [h0, h1, h2, h3]

/-! Evaluating the A* loop. -/

theorem orInf_zero : orInf (some (0 : ℝ)) = none := by
  show (if (0 : ℝ) = 0 then none else some (0 : ℝ)) = none
  rw [if_pos rfl]

theorem orInf_ne {x : ℝ} (h : x ≠ 0) : orInf (some x) = some x := by
  show (if x = 0 then none else some x) = some x
  rw [if_neg h]

theorem aStarGo_succ (graph : NavGraph) (goal fuel : ℕ) (st : AState) :
    aStarGo graph goal (fuel + 1) st =
      if st.openSet = [] then some []
      else
        match selectCurrent st.openSet st.fScore with
        | none => aStarGo graph goal fuel st
        | some current =>
          if current = goal then reconstructGo st.cameFrom fuel current []
          else
            aStarGo graph goal fuel
              (relaxNeighbors graph goal current { st with openSet := st.openSet.erase current }) :=
  rfl

theorem selectCurrent_single_pos (i : ℕ) (f : ℕ → Option ℝ)
    (h : ltInf (orInf (f i)) none) : selectCurrent [i] f = some i := by
  unfold selectCurrent selectAux
  rw [if_pos h]
  rfl

theorem selectCurrent_single_neg (i : ℕ) (f : ℕ → Option ℝ)
    (h : ¬ ltInf (orInf (f i)) none) : selectCurrent [i] f = none := by
  unfold selectCurrent selectAux
  rw [if_neg h]
  rfl

theorem relaxNeighbors_noop (graph : NavGraph) (goal current : ℕ) (st : AState)
    (hg : orInf (st.gScore current) = none) :
    relaxNeighbors graph goal current st = st := by
  unfold relaxNeighbors
  suffices h : ∀ l : List ℕ, l.foldl
      (fun s neighbor =>
        match addInf (orInf (s.gScore current))
            (distance3D (nodePos graph current) (nodePos graph neighbor)) with
        | none => s
        | some t =>
          if ltInf (some t) (orInf (s.gScore neighbor)) then
            { openSet := if neighbor ∈ s.openSet then s.openSet else s.openSet ++ [neighbor]
              cameFrom := fun i => if i = neighbor then some current else s.cameFrom i
              gScore := fun i => if i = neighbor then some t else s.gScore i
              fScore := fun i =>
                if i = neighbor then
                  some (t + distance3D (nodePos graph neighbor) (nodePos graph goal))
                else s.fScore i }
          else s) st = st by
    exact h _
  intro l
  induction l with
  | nil => rfl
  | cons n rest ih =>
    rw [List.foldl_cons, hg]
    exact ih

theorem aStarGo_stuck (graph : NavGraph) (goal : ℕ) (st : AState)
    (hopen : ¬ st.openSet = [])
    (hsel : selectCurrent st.openSet st.fScore = none) :
    ∀ fuel, aStarGo graph goal fuel st = none := by
  intro fuel
  induction fuel with
  | zero => rfl
  | succ n ih =>
    rw [aStarGo_succ, if_neg hopen, hsel]
    exact ih

/-! The single-node building: the A* selection treats the start's f-score 0 as
Infinity and loops forever on an unchanged state. -/

theorem oneArea_nodes :
    (buildNavigationGraph oneAreaBuilding 0).nodes =
      [⟨0, ((0 : ℝ), (0.5 : ℝ), (0 : ℝ)), none, none⟩] := by
  norm_num [buildNavigationGraph, oneAreaBuilding, oneAreaLevel, areaNodesAux, areasLoop,
    jsOrR]

theorem oneArea_nodePos :
    nodePos (buildNavigationGraph oneAreaBuilding 0) 0 = ((0 : ℝ), (0.5 : ℝ), (0 : ℝ)) := by
  unfold nodePos
  rw [oneArea_nodes]
  rfl

theorem oneArea_nearest (p : Vec3) :
    findNearestNode p (buildNavigationGraph oneAreaBuilding 0).nodes = 0 := by
  rw [oneArea_nodes]
  unfold findNearestNode nearestAux nearestAux
  split <;> rfl

/-- Claim C2 (code behavior at the failing input): on a building whose level
has a single positioned area, nearest-start and nearest-goal node coincide,
the start node's f-score is `distance3D p p = 0`, `fScore.get(i) || Infinity`
turns it into `Infinity`, the minimum selection leaves `current = -1`, and the
`while` loop never terminates: for every fuel the embedded loop is still
running, so `calculatePath` never returns. -/
theorem c2_calculatePath_diverges :
    ∀ fuel : ℕ, calculatePath fuel ((0 : ℝ), (0.5 : ℝ), (0 : ℝ)) ((5 : ℝ), (0.5 : ℝ), (0 : ℝ))
      oneAreaBuilding none = none := by
  intro fuel
  have hmatch : levelMatchIndex (((0 : ℝ), (0.5 : ℝ), (0 : ℝ)) : Vec3).2.1
      oneAreaBuilding.buildingLevels = some 0 := by
    norm_num [levelMatchIndex, oneAreaBuilding, oneAreaLevel, jsOrR]
  unfold calculatePath
  rw [hmatch]
  dsimp only
  rw [if_neg (by rw [oneArea_nodes]; norm_num)]
  rw [oneArea_nearest, oneArea_nearest]
  unfold aStar
  have hsel : selectCurrent [0]
      (fun i => if i = 0 then
        some (distance3D (nodePos (buildNavigationGraph oneAreaBuilding 0) 0)
          (nodePos (buildNavigationGraph oneAreaBuilding 0) 0))
        else none) = none := by
    apply selectCurrent_single_neg
    dsimp only
    rw [if_pos rfl, oneArea_nodePos, distance3D_self, orInf_zero]
    exact fun h => h
  rw [aStarGo_stuck (buildNavigationGraph oneAreaBuilding 0) 0
    { openSet := [0]
      cameFrom := fun _ => none
      gScore := fun i => if i = 0 then some 0 else none
      fScore := fun i => if i = 0 then
        some (distance3D (nodePos (buildNavigationGraph oneAreaBuilding 0) 0)
          (nodePos (buildNavigationGraph oneAreaBuilding 0) 0))
        else none }
    (by simp) hsel fuel]

/-! Evaluating the scenario pipeline of the two-area building. -/

theorem distC1_a : distance3D ((3 : ℝ), (0.5 : ℝ), (0 : ℝ)) ((0 : ℝ), (0.5 : ℝ), (0 : ℝ)) = 3 := by
  rw [distance3D_x]
  norm_num

theorem distC1_b : distance3D ((3 : ℝ), (0.5 : ℝ), (0 : ℝ)) ((0 : ℝ), (0.5 : ℝ), (1 : ℝ)) =
    Real.sqrt 10 := by
  simp only [distance3D]
  norm_num

theorem distC1_c : distance3D ((3 : ℝ), (0.5 : ℝ), (0 : ℝ)) ((3 : ℝ), (0.5 : ℝ), (1 : ℝ)) = 1 := by
  rw [distance3D_z]
  norm_num

theorem distC1_d : distance3D ((0 : ℝ), (0.5 : ℝ), (0 : ℝ)) ((3 : ℝ), (0.5 : ℝ), (0 : ℝ)) = 3 := by
  rw [distance3D_x]
  norm_num

theorem distC1_e : distance3D ((0 : ℝ), (0.5 : ℝ), (0 : ℝ)) ((0 : ℝ), (0.5 : ℝ), (1 : ℝ)) = 1 := by
  rw [distance3D_z]
  norm_num

theorem distC1_f : distance3D ((0 : ℝ), (0.5 : ℝ), (0 : ℝ)) ((3 : ℝ), (0.5 : ℝ), (1 : ℝ)) =
    Real.sqrt 10 := by
  simp only [distance3D]
  norm_num

theorem twoArea_nodePos0 :
    nodePos (buildNavigationGraph twoAreaBuilding 0) 0 = ((0 : ℝ), (0.5 : ℝ), (0 : ℝ)) := by
  unfold nodePos
  rw [twoArea_nodes]
  rfl

theorem twoArea_nodePos1 :
    nodePos (buildNavigationGraph twoAreaBuilding 0) 1 = ((3 : ℝ), (0.5 : ℝ), (0 : ℝ)) := by
  unfold nodePos
  rw [twoArea_nodes]
  rfl

theorem twoArea_nearest_start :
    findNearestNode ((3 : ℝ), (0.5 : ℝ), (0 : ℝ)) (buildNavigationGraph twoAreaBuilding 0).nodes = 1 := by
  have h10 : ¬ (Real.sqrt 10 < 0) := not_lt.mpr (Real.sqrt_nonneg 10)
  rw [twoArea_nodes]
  simp only [findNearestNode, nearestAux]
  simp only [distC1_a, distC1_b, distC1_c, distance3D_self]
  simp only [ltInf]
  norm_num [h10]

theorem twoArea_nearest_end :
    findNearestNode ((0 : ℝ), (0.5 : ℝ), (0 : ℝ)) (buildNavigationGraph twoAreaBuilding 0).nodes = 0 := by
  have h10 : ¬ (Real.sqrt 10 < 0) := not_lt.mpr (Real.sqrt_nonneg 10)
  rw [twoArea_nodes]
  simp only [findNearestNode, nearestAux]
  simp only [distC1_d, distC1_e, distC1_f, distance3D_self]
  simp only [ltInf]
  norm_num [h10]

theorem twoArea_aStar : aStar 2 1 0 (buildNavigationGraph twoAreaBuilding 0) = some [] := by
  unfold aStar
  have hsel : selectCurrent [1]
      (fun i => if i = 1 then
        some (distance3D (nodePos (buildNavigationGraph twoAreaBuilding 0) 1)
          (nodePos (buildNavigationGraph twoAreaBuilding 0) 0))
        else none) = some 1 := by
    apply selectCurrent_single_pos
    dsimp only
    rw [if_pos rfl, twoArea_nodePos1, twoArea_nodePos0, distC1_a,
      orInf_ne (by norm_num : (3 : ℝ) ≠ 0)]
    trivial
  rw [show (2 : ℕ) = 1 + 1 from rfl, aStarGo_succ]
  rw [if_neg (by simp)]
  dsimp only
  rw [hsel]
  dsimp only
  rw [if_neg (by norm_num : ¬ (1 = 0))]
  rw [relaxNeighbors_noop _ _ _ _ (by dsimp only; rw [if_pos rfl, orInf_zero])]
  rw [show (1 : ℕ) = 0 + 1 from rfl, aStarGo_succ]
  rw [if_pos (by simp)]

/-- Claim C1 (code behavior at the scenario): the two-area graph has 4 nodes
but only 3 bidirectional edges; the COCINA door node sits at (3, 0.5, 1);
`findNearestExit` returns SALA's center (0, 0.5, 0); and `calculatePath` from
COCINA's center to that exit returns the plain straight-line fallback —
because `gScore.get(current) || Infinity` turns the start node's g-score 0
into Infinity, A* never relaxes a neighbor and finds no path — so the
returned waypoints contain neither the COCINA→SALA door node's position nor
the exit-door node's position. -/
theorem c1_two_area_scenario_behavior :
    (buildNavigationGraph twoAreaBuilding 0).nodes.length = 4 ∧
    undirectedEdgeCount (buildNavigationGraph twoAreaBuilding 0) = 3 ∧
    (buildNavigationGraph twoAreaBuilding 0).nodes.get? 3 =
      some ⟨1, ((3 : ℝ), (0.5 : ℝ), (1 : ℝ)), some true, none⟩ ∧
    findNearestExit cocinaAgent twoAreaBuilding = some ((0 : ℝ), (0.5 : ℝ), (0 : ℝ)) ∧
    calculatePath 2 ((3 : ℝ), (0.5 : ℝ), (0 : ℝ)) ((0 : ℝ), (0.5 : ℝ), (0 : ℝ))
      twoAreaBuilding none =
      some (straightLinePath ((3 : ℝ), (0.5 : ℝ), (0 : ℝ)) ((0 : ℝ), (0.5 : ℝ), (0 : ℝ)) 10) ∧
    ((3 : ℝ), (0.5 : ℝ), (1 : ℝ)) ∉
      straightLinePath ((3 : ℝ), (0.5 : ℝ), (0 : ℝ)) ((0 : ℝ), (0.5 : ℝ), (0 : ℝ)) 10 ∧
    ((0 : ℝ), (0.5 : ℝ), (1 : ℝ)) ∉
      straightLinePath ((3 : ℝ), (0.5 : ℝ), (0 : ℝ)) ((0 : ℝ), (0.5 : ℝ), (0 : ℝ)) 10 := by
  have hz : ∀ q ∈ straightLinePath ((3 : ℝ), (0.5 : ℝ), (0 : ℝ)) ((0 : ℝ), (0.5 : ℝ), (0 : ℝ)) 10,
      q.2.2 = 0 := by
    intro q hq
    unfold straightLinePath at hq
    rw [List.mem_map] at hq
    obtain ⟨i, _, hi⟩ := hq
    rw [← hi]
    norm_num
  refine ⟨by rw [twoArea_nodes]; rfl, ?_, by rw [twoArea_nodes]; rfl, ?_, ?_, ?_, ?_⟩
  · unfold undirectedEdgeCount
    rw [twoArea_nodes]
    simp [twoArea_edges, List.range_succ]
  · show (_ : Option Vec3 × Option ℝ).1 = _
    norm_num [findNearestExit, cocinaAgent, twoAreaBuilding, twoAreaLevel, salaArea,
      cocinaArea, salaExitDoor, cocinaDoor, jsBool, jsOrR]
  · have hmatch : levelMatchIndex (((3 : ℝ), (0.5 : ℝ), (0 : ℝ)) : Vec3).2.1
        twoAreaBuilding.buildingLevels = some 0 := by
      norm_num [levelMatchIndex, twoAreaBuilding, twoAreaLevel, jsOrR]
    unfold calculatePath
    rw [hmatch]
    dsimp only
    rw [if_neg (by rw [twoArea_nodes]; norm_num)]
    rw [twoArea_nearest_start, twoArea_nearest_end, twoArea_aStar]
    rfl
  · intro hmem
    have := hz _ hmem
    norm_num at this
  · intro hmem
    have := hz _ hmem
    norm_num at this

/-! Evaluating the corridor building. -/

theorem corridor_inc_a : jsIncludes (strLower "A") (strLower (jsStr (some "B"))) = false := rfl

theorem corridor_inc_b : jsIncludes (strLower "B") (strLower (jsStr (some "B"))) = true := rfl

theorem bStr_isEmpty : ("B" : String).isEmpty = false := rfl

theorem corridor_nodes :
    (buildNavigationGraph corridorBuilding 0).nodes =
      [⟨0, ((0 : ℝ), (0.5 : ℝ), (0 : ℝ)), none, none⟩,
       ⟨1, ((1 : ℝ), (0.5 : ℝ), (0 : ℝ)), none, none⟩,
       ⟨0, ((0.5 : ℝ), (0.5 : ℝ), (0 : ℝ)), some true, none⟩] := by
  norm_num [buildNavigationGraph, corridorBuilding, corridorLevel, roomA, roomB,
    areaNodesAux, areasLoop, doorsLoop, doorStep, jsOrR, jsLenOr, strTruthy, jsBool,
    bStr_isEmpty, corridor_inc_a, corridor_inc_b]

theorem corridor_edges :
    ∀ i, (buildNavigationGraph corridorBuilding 0).edges i =
      if i = 0 then [2] else if i = 1 then [2] else if i = 2 then [0, 1] else [] := by
  intro i
  norm_num [buildNavigationGraph, corridorBuilding, corridorLevel, roomA, roomB,
    areaNodesAux, areasLoop, doorsLoop, doorStep, jsOrR, jsLenOr, strTruthy, jsBool,
    bStr_isEmpty, corridor_inc_a, corridor_inc_b, pushPair, pushE]
  by_cases h0 : i = 0
  · simp [h0]
  · by_cases h1 : i = 1
    · simp [h1]
    · by_cases h2 : i = 2
      · simp [h2]
      · simp [h0, h1, h2]

theorem corridor_nodePos0 :
    nodePos (buildNavigationGraph corridorBuilding 0) 0 = ((0 : ℝ), (0.5 : ℝ), (0 : ℝ)) := by
  unfold nodePos
  rw [corridor_nodes]
  rfl

theorem corridor_nodePos1 :
    nodePos (buildNavigationGraph corridorBuilding 0) 1 = ((1 : ℝ), (0.5 : ℝ), (0 : ℝ)) := by
  unfold nodePos
  rw [corridor_nodes]
  rfl

theorem corridor_nodePos2 :
    nodePos (buildNavigationGraph corridorBuilding 0) 2 = ((0.5 : ℝ), (0.5 : ℝ), (0 : ℝ)) := by
  unfold nodePos
  rw [corridor_nodes]
  rfl

theorem corridor_nearest_start :
    findNearestNode ((-10 : ℝ), (0.5 : ℝ), (0 : ℝ))
      (buildNavigationGraph corridorBuilding 0).nodes = 0 := by
  rw [corridor_nodes]
  simp only [findNearestNode, nearestAux]
  simp only [distance3D_x]
  simp only [ltInf]
  norm_num [abs_of_nonneg]

theorem corridor_nearest_end :
    findNearestNode ((11 : ℝ), (0.5 : ℝ), (0 : ℝ))
      (buildNavigationGraph corridorBuilding 0).nodes = 1 := by
  rw [corridor_nodes]
  simp only [findNearestNode, nearestAux]
  simp only [distance3D_x]
  simp only [ltInf]
  norm_num [abs_of_nonneg]

theorem corridor_aStar : aStar 2 0 1 (buildNavigationGraph corridorBuilding 0) = some [] := by
  unfold aStar
  have hsel : selectCurrent [0]
      (fun i => if i = 0 then
        some (distance3D (nodePos (buildNavigationGraph corridorBuilding 0) 0)
          (nodePos (buildNavigationGraph corridorBuilding 0) 1))
        else none) = some 0 := by
    apply selectCurrent_single_pos
    dsimp only
    rw [if_pos rfl, corridor_nodePos0, corridor_nodePos1, distance3D_x]
    rw [orInf_ne (by norm_num : |(0 : ℝ) - 1| ≠ 0)]
    trivial
  rw [show (2 : ℕ) = 1 + 1 from rfl, aStarGo_succ]
  rw [if_neg (by simp)]
  dsimp only
  rw [hsel]
  dsimp only
  rw [if_neg (by norm_num : ¬ (0 = 1))]
  rw [relaxNeighbors_noop _ _ _ _ (by dsimp only; rw [if_pos rfl, orInf_zero])]
  rw [show (1 : ℕ) = 0 + 1 from rfl, aStarGo_succ]
  rw [if_pos (by simp)]

theorem corridor_slp_eval :
    straightLinePath ((-10 : ℝ), (0.5 : ℝ), (0 : ℝ)) ((11 : ℝ), (0.5 : ℝ), (0 : ℝ)) 10 =
      [((-10 : ℝ), (0.5 : ℝ), (0 : ℝ)), ((-7.9 : ℝ), (0.5 : ℝ), (0 : ℝ)),
       ((-5.8 : ℝ), (0.5 : ℝ), (0 : ℝ)), ((-3.7 : ℝ), (0.5 : ℝ), (0 : ℝ)),
       ((-1.6 : ℝ), (0.5 : ℝ), (0 : ℝ)), ((0.5 : ℝ), (0.5 : ℝ), (0 : ℝ)),
       ((2.6 : ℝ), (0.5 : ℝ), (0 : ℝ)), ((4.7 : ℝ), (0.5 : ℝ), (0 : ℝ)),
       ((6.8 : ℝ), (0.5 : ℝ), (0 : ℝ)), ((8.9 : ℝ), (0.5 : ℝ), (0 : ℝ)),
       ((11 : ℝ), (0.5 : ℝ), (0 : ℝ))] := by
  unfold straightLinePath
  rw [show List.range 11 = [0, 1, 2, 3, 4, 5, 6, 7, 8, 9, 10] from rfl]
  simp only [List.map]
  norm_num

/-- Claim C3 (code behavior at the failing input): all edge weights of the
corridor graph are strictly positive, the nearest node to the start is 0 and
to the goal is 1, and the graph contains the path 0 — 2 — 1 of total weight 1;
yet `calculatePath` returns the straight-line fallback of length 21 (A* never
relaxes a neighbor because `gScore.get(current) || Infinity` evaluates to
Infinity at g = 0), so the returned path is not within any bound of the
optimal graph path. -/
theorem c3_no_optimality :
    (∀ u v, v ∈ (buildNavigationGraph corridorBuilding 0).edges u →
      0 < distance3D (nodePos (buildNavigationGraph corridorBuilding 0) u)
        (nodePos (buildNavigationGraph corridorBuilding 0) v)) ∧
    findNearestNode ((-10 : ℝ), (0.5 : ℝ), (0 : ℝ))
      (buildNavigationGraph corridorBuilding 0).nodes = 0 ∧
    findNearestNode ((11 : ℝ), (0.5 : ℝ), (0 : ℝ))
      (buildNavigationGraph corridorBuilding 0).nodes = 1 ∧
    isGraphPath (buildNavigationGraph corridorBuilding 0) 0 1 [0, 2, 1] ∧
    graphPathCost (buildNavigationGraph corridorBuilding 0) [0, 2, 1] = 1 ∧
    calculatePath 2 ((-10 : ℝ), (0.5 : ℝ), (0 : ℝ)) ((11 : ℝ), (0.5 : ℝ), (0 : ℝ))
      corridorBuilding none =
      some (straightLinePath ((-10 : ℝ), (0.5 : ℝ), (0 : ℝ)) ((11 : ℝ), (0.5 : ℝ), (0 : ℝ)) 10) ∧
    polylineLen (straightLinePath ((-10 : ℝ), (0.5 : ℝ), (0 : ℝ)) ((11 : ℝ), (0.5 : ℝ), (0 : ℝ)) 10) = 21 ∧
    ¬ (polylineLen (straightLinePath ((-10 : ℝ), (0.5 : ℝ), (0 : ℝ))
        ((11 : ℝ), (0.5 : ℝ), (0 : ℝ)) 10) ≤
      graphPathCost (buildNavigationGraph corridorBuilding 0) [0, 2, 1]) := by
  have hcost : graphPathCost (buildNavigationGraph corridorBuilding 0) [0, 2, 1] = 1 := by
    simp only [graphPathCost, corridor_nodePos0, corridor_nodePos1, corridor_nodePos2,
      distance3D_x]
    norm_num [abs_of_nonneg]
  have hlen : polylineLen (straightLinePath ((-10 : ℝ), (0.5 : ℝ), (0 : ℝ))
      ((11 : ℝ), (0.5 : ℝ), (0 : ℝ)) 10) = 21 := by
    rw [corridor_slp_eval]
    simp only [polylineLen, pathLen, distance3D_x]
    norm_num [abs_of_nonneg]
  refine ⟨?_, corridor_nearest_start, corridor_nearest_end, ?_, hcost, ?_, hlen, ?_⟩
  · intro u v hv
    rw [corridor_edges u] at hv
    by_cases h0 : u = 0
    · subst h0
      simp at hv
      subst hv
      rw [corridor_nodePos0, corridor_nodePos2, distance3D_x]
      norm_num
    · by_cases h1 : u = 1
      · subst h1
        simp [h0] at hv
        subst hv
        rw [corridor_nodePos1, corridor_nodePos2, distance3D_x]
        norm_num
      · by_cases h2 : u = 2
        · subst h2
          simp [h0, h1] at hv
          rcases hv with rfl | rfl
          · rw [corridor_nodePos2, corridor_nodePos0, distance3D_x]
            norm_num
          · rw [corridor_nodePos2, corridor_nodePos1, distance3D_x]
            norm_num
        · simp [h0, h1, h2] at hv
  · simp [isGraphPath, corridor_edges]
  · have hmatch : levelMatchIndex (((-10 : ℝ), (0.5 : ℝ), (0 : ℝ)) : Vec3).2.1
        corridorBuilding.buildingLevels = some 0 := by
      norm_num [levelMatchIndex, corridorBuilding, corridorLevel, jsOrR]
    unfold calculatePath
    rw [hmatch]
    dsimp only
    rw [if_neg (by rw [corridor_nodes]; norm_num)]
    rw [corridor_nearest_start, corridor_nearest_end, corridor_aStar]
    rfl
  · rw [hlen, hcost]
    norm_num
